import Mathlib

/-!
Verification of the CPCDS metric-computation and aggregation engine.

The development shallowly embeds the JavaScript source of the repository:

* `src/metrics/containment.js` — lexical metrics and the pairwise detector
  (`calculateEntropy`, `detectConsensusCollapse`, `detectRecursiveLoop`,
  `measureCertaintyEscalation`, `detectContainment`);
* `src/analysis/analyze_compression.js` — the two-condition compression
  aggregator;
* `src/analysis/analyze_multiturn.js` — the five-turn sequence aggregator
  (escape test, dissenter-bias comparison);
* `src/analysis/export_for_r.js` — the record normalizer / export writer.

JavaScript numbers are modelled as `ℝ` where entropies occur (Shannon
entropy is irrational in general) and as `ℚ` in the purely arithmetic
aggregation layer.  Token streams are modelled by a character-level
splitter that mirrors the `natural` word tokenizer (split on maximal runs
of non-word characters after lowercasing); sentence segmentation mirrors
`compromise` on punctuation-terminated text.  Display rounding
(`toFixed`) is treated as presentation and values are kept exact.
-/

/-! ## Character and string utilities -/

/-- Word characters of the word tokenizer: ASCII alphanumerics and underscore
(the gap pattern of the tokenizer splits on maximal runs of everything
else). -/
def isWordChar (c : Char) : Bool := c.isAlphanum || c == '_'

/-- Split a character list into maximal chunks of characters for which `p` is
false, dropping empty chunks.  `acc` holds the current chunk, reversed. -/
def chunksBy (p : Char → Bool) : List Char → List Char → List String
  | [], acc => if acc.isEmpty then [] else [String.mk acc.reverse]
  | c :: rest, acc =>
    if p c then
      (if acc.isEmpty then [] else [String.mk acc.reverse]) ++ chunksBy p rest []
    else
      chunksBy p rest (c :: acc)

/-- `new natural.WordTokenizer().tokenize(text.toLowerCase())`: lowercase,
then split on non-word characters, discarding empties. -/
def tokenize (text : String) : List String :=
  chunksBy (fun c => !isWordChar c) (text.data.map Char.toLower) []

/-- JavaScript `String.prototype.includes` for a needle given as a character
list: some suffix of `s` starts with `pat`. -/
def containsSeq (pat : List Char) : List Char → Bool
  | [] => List.isPrefixOf pat []
  | c :: rest => List.isPrefixOf pat (c :: rest) || containsSeq pat rest

/-- JavaScript `s.includes(pat)`. -/
def jsIncludes (s pat : String) : Bool := containsSeq pat.data s.data

/-- JavaScript `s.startsWith(pat)`. -/
def jsStartsWith (s pat : String) : Bool := List.isPrefixOf pat.data s.data

/-- JavaScript `s.split('-')` (keeps empty parts; `acc` is the current part,
reversed). -/
def splitOnDash : List Char → List Char → List String
  | [], acc => [String.mk acc.reverse]
  | c :: rest, acc =>
    if c == '-' then String.mk acc.reverse :: splitOnDash rest []
    else splitOnDash rest (c :: acc)

/-- Insertion-order deduplication (JavaScript `Set` iteration order, and the
first-wins key order of a plain object used as a frequency map). -/
def firstDedupAux : List String → List String → List String
  | [], _ => []
  | a :: l, seen =>
    if a ∈ seen then firstDedupAux l seen else a :: firstDedupAux l (a :: seen)

/-- Deduplicate keeping first occurrences. -/
def firstDedup (l : List String) : List String := firstDedupAux l []

/-! ## Token-level regex models

Each regex family `/\b(alt1|alt2|…)\b/gi` of the source is modelled as a
left-to-right, non-overlapping scan over the lowercased token stream; an
alternative is a list of consecutive tokens. -/

/-- Fuel-driven scanner behind `countFamily`; every step consumes at least one
token, so fuel equal to the stream length is enough. -/
def countFamilyAux (phrases : List (List String)) : ℕ → List String → ℕ
  | 0, _ => 0
  | _, [] => 0
  | fuel + 1, t :: rest =>
    match phrases.find? (fun p => List.isPrefixOf p (t :: rest)) with
    | some p => 1 + countFamilyAux phrases fuel (rest.drop (p.length - 1))
    | none => countFamilyAux phrases fuel rest

/-- Count the non-overlapping matches of a family of token phrases in a token
stream, scanning left to right and preferring the first listed alternative
at each position (regex alternation order). -/
def countFamily (phrases : List (List String)) (stream : List String) : ℕ :=
  countFamilyAux phrases stream.length stream

/-! ## Compression aggregator (`analyze_compression.js`) -/

/-- One raw result record as consumed by the compression analysis:
`r.vars.topic`, `r.prompt.raw`, `r.response.tokenUsage.completion`. -/
structure CompRecord where
  topic : String
  prompt : String
  tokens : ℕ
deriving DecidableEq

/-- The prompt-text heuristic of the `results.forEach` classifier. -/
inductive PromptClass where
  | baselineClass
  | triggerClass
  | unclassified
deriving DecidableEq

/-- `prompt.startsWith('Analyse') || prompt.startsWith('Analyze')` makes a
baseline; otherwise `prompt.includes('expert') || prompt.includes('consensus')`
makes a trigger; otherwise the record is left unclassified. -/
def classifyPrompt (prompt : String) : PromptClass :=
  if jsStartsWith prompt "Analyse" || jsStartsWith prompt "Analyze" then
    PromptClass.baselineClass
  else if jsIncludes prompt "expert" || jsIncludes prompt "consensus" then
    PromptClass.triggerClass
  else PromptClass.unclassified

/-- Per-topic slot of the `topics` object: last-written baseline and trigger
token counts. -/
structure TopicPair where
  baseline : Option ℕ
  trigger : Option ℕ
deriving DecidableEq

/-- Accumulator of the `results.forEach` loop: the insertion-ordered `topics`
object and the `baseline` / `trigger` token pools. -/
structure CompState where
  topics : List (String × TopicPair)
  baselinePool : List ℕ
  triggerPool : List ℕ
deriving DecidableEq

/-- Write the baseline slot of `topic` in the association list. -/
def setBaseline (topics : List (String × TopicPair)) (topic : String) (tok : ℕ) :
    List (String × TopicPair) :=
  topics.map (fun p => if p.1 == topic then (p.1, { p.2 with baseline := some tok }) else p)

/-- Write the trigger slot of `topic` in the association list. -/
def setTrigger (topics : List (String × TopicPair)) (topic : String) (tok : ℕ) :
    List (String × TopicPair) :=
  topics.map (fun p => if p.1 == topic then (p.1, { p.2 with trigger := some tok }) else p)

/-- One iteration of the `results.forEach` loop of `analyze_compression.js`:
ensure the topic slot exists, then classify the prompt and push the token
count into the matching pool and slot. -/
def compStep (st : CompState) (r : CompRecord) : CompState :=
  let topics0 :=
    if st.topics.any (fun p => p.1 == r.topic) then st.topics
    else st.topics ++ [(r.topic, ⟨none, none⟩)]
  match classifyPrompt r.prompt with
  | PromptClass.baselineClass =>
      { topics := setBaseline topics0 r.topic r.tokens
        baselinePool := st.baselinePool ++ [r.tokens]
        triggerPool := st.triggerPool }
  | PromptClass.triggerClass =>
      { topics := setTrigger topics0 r.topic r.tokens
        baselinePool := st.baselinePool
        triggerPool := st.triggerPool ++ [r.tokens] }
  | PromptClass.unclassified =>
      { topics := topics0
        baselinePool := st.baselinePool
        triggerPool := st.triggerPool }

/-- The whole collection loop. -/
def collectResults (results : List CompRecord) : CompState :=
  results.foldl compStep ⟨[], [], []⟩

/-- `baselineTotal = baseline.reduce((a,b) => a+b, 0)`. -/
def baselineTotal (results : List CompRecord) : ℕ :=
  (collectResults results).baselinePool.sum

/-- `triggerTotal = trigger.reduce((a,b) => a+b, 0)`. -/
def triggerTotal (results : List CompRecord) : ℕ :=
  (collectResults results).triggerPool.sum

/-- `compression = (baselineTotal - triggerTotal) / baselineTotal * 100`
(the source then formats it with `toFixed(1)` for display). -/
def overallCompression (results : List CompRecord) : ℚ :=
  ((baselineTotal results : ℚ) - (triggerTotal results : ℚ)) / (baselineTotal results) * 100

/-- The tokens of the records the prompt heuristic classifies as baseline. -/
def baselineClassified (results : List CompRecord) : List ℕ :=
  (results.filter (fun r => classifyPrompt r.prompt = PromptClass.baselineClass)).map
    (fun r => r.tokens)

/-- The tokens of the records the prompt heuristic classifies as trigger. -/
def triggerClassified (results : List CompRecord) : List ℕ :=
  (results.filter (fun r => classifyPrompt r.prompt = PromptClass.triggerClass)).map
    (fun r => r.tokens)

/-! ## Stable descending insertion sort

Models `Array.prototype.sort` with a `(a, b) => key(b) - key(a)` comparator
(descending, stable). -/

/-- Insert `x` into a descending-sorted list, before the first strictly
smaller element (so that earlier-listed elements win ties). -/
def insertDescBy {α : Type} (key : α → ℚ) (x : α) : List α → List α
  | [] => [x]
  | y :: l => if key y ≤ key x then x :: y :: l else y :: insertDescBy key x l

/-- Stable descending sort by a rational key. -/
def sortDescBy {α : Type} (key : α → ℚ) : List α → List α
  | [] => []
  | x :: l => insertDescBy key x (sortDescBy key l)

/-- `x.toFixed(1)` read back as a number (the comparator
`(a, b) => b.compression - a.compression` coerces the stored one-decimal
string numerically): round to the nearest tenth, exact halves toward the
larger value. -/
def toFixed1 (q : ℚ) : ℚ := (⌊q * 10 + 1 / 2⌋ : ℚ) / 10

/-- One row of `topicCompressions`; `compression` holds the `toFixed(1)`
value the row stores and displays. -/
structure TopicCompression where
  topic : String
  baseline : ℕ
  trigger : ℕ
  compression : ℚ
deriving DecidableEq

/-- The paired-group rows: topics whose baseline and trigger slots are both
truthy (a `0` token count is falsy in JavaScript), with per-group
compression rounded by `toFixed(1)`, sorted descending by that stored
rounded value (the sort is stable, so rounding ties keep insertion
order). -/
def topicCompressions (results : List CompRecord) : List TopicCompression :=
  sortDescBy (fun tc => tc.compression)
    (((collectResults results).topics).filterMap (fun p =>
      match p.2.baseline, p.2.trigger with
      | some b, some t =>
          if b ≠ 0 ∧ t ≠ 0 then
            some ⟨p.1, b, t, toFixed1 (((b : ℚ) - (t : ℚ)) / (b : ℚ) * 100)⟩
          else none
      | _, _ => none))

/-- `showCount = Math.min(10, topicCompressions.length)`. -/
def showCount (results : List CompRecord) : ℕ :=
  min 10 (topicCompressions results).length

/-- The "top N most compressed" list: `topicCompressions.slice(0, showCount)`. -/
def topCompressed (results : List CompRecord) : List TopicCompression :=
  (topicCompressions results).take (showCount results)

/-- The "bottom N least compressed" list, printed only inside
`if (topicCompressions.length > 10)`: `slice(-showCount).reverse()`. -/
def bottomCompressed (results : List CompRecord) : Option (List TopicCompression) :=
  if 10 < (topicCompressions results).length then
    some (((topicCompressions results).drop
      ((topicCompressions results).length - showCount results)).reverse)
  else none

/-! ### Sorting lemmas -/

lemma mem_insertDescBy {α : Type} (key : α → ℚ) (x : α) (l : List α) (a : α) :
    a ∈ insertDescBy key x l ↔ a = x ∨ a ∈ l := by
  induction l with
  | nil => simp [insertDescBy]
  | cons y t ih =>
    rw [insertDescBy]
    by_cases h : key y ≤ key x
    · simp [h]
    · simp only [h, if_false, List.mem_cons, ih]
      tauto

lemma length_insertDescBy {α : Type} (key : α → ℚ) (x : α) (l : List α) :
    (insertDescBy key x l).length = l.length + 1 := by
  induction l with
  | nil => simp [insertDescBy]
  | cons y t ih =>
    rw [insertDescBy]
    by_cases h : key y ≤ key x <;> simp [h, ih]

lemma length_sortDescBy {α : Type} (key : α → ℚ) (l : List α) :
    (sortDescBy key l).length = l.length := by
  induction l with
  | nil => rfl
  | cons x t ih => rw [sortDescBy, length_insertDescBy, ih, List.length_cons]

lemma mem_sortDescBy {α : Type} (key : α → ℚ) (l : List α) (a : α) :
    a ∈ sortDescBy key l ↔ a ∈ l := by
  induction l with
  | nil => simp [sortDescBy]
  | cons x t ih => rw [sortDescBy, mem_insertDescBy]; simp [ih]

lemma pairwise_insertDescBy {α : Type} (key : α → ℚ) (x : α) (l : List α)
    (h : l.Pairwise (fun a b => key b ≤ key a)) :
    (insertDescBy key x l).Pairwise (fun a b => key b ≤ key a) := by
  induction l with
  | nil => simp [insertDescBy]
  | cons y t ih =>
    rw [insertDescBy]
    by_cases hxy : key y ≤ key x
    · rw [if_pos hxy]
      refine List.Pairwise.cons ?_ h
      intro b hb
      rcases List.mem_cons.mp hb with rfl | hbt
      · exact hxy
      · exact le_trans (List.rel_of_pairwise_cons h hbt) hxy
    · rw [if_neg hxy]
      have hx : key x ≤ key y := le_of_not_le hxy
      refine List.Pairwise.cons ?_ (ih h.of_cons)
      intro b hb
      rcases (mem_insertDescBy key x t b).mp hb with rfl | hbt
      · exact hx
      · exact List.rel_of_pairwise_cons h hbt

lemma pairwise_sortDescBy {α : Type} (key : α → ℚ) (l : List α) :
    (sortDescBy key l).Pairwise (fun a b => key b ≤ key a) := by
  induction l with
  | nil => simp [sortDescBy]
  | cons x t ih => exact pairwise_insertDescBy key x _ ih

/-! ### C2: the overall compression ranges over all collected tokens -/

lemma compFold_pools (results : List CompRecord) : ∀ st : CompState,
    (results.foldl compStep st).baselinePool = st.baselinePool ++ baselineClassified results ∧
    (results.foldl compStep st).triggerPool = st.triggerPool ++ triggerClassified results := by
  induction results with
  | nil => intro st; simp [baselineClassified, triggerClassified]
  | cons a l ih =>
    intro st
    simp only [List.foldl_cons]
    rcases ih (compStep st a) with ⟨hb, ht⟩
    rw [hb, ht]
    unfold baselineClassified triggerClassified
    simp only [List.filter_cons]
    cases h : classifyPrompt a.prompt <;>
      simp [compStep, h, baselineClassified, triggerClassified, List.append_assoc]

/-- C2.  The overall compression percentage equals
`(Σ baseline-classified tokens − Σ trigger-classified tokens) / Σ baseline-classified tokens × 100`,
where both sums range over every record the prompt heuristic classifies as
baseline (resp. trigger) — the classification of a record never consults the
`topics` pairing state, so one-sided groups contribute exactly like paired
ones. -/
theorem overallCompression_ranges_over_all_collected (results : List CompRecord) :
    overallCompression results =
      (((baselineClassified results).sum : ℚ) - ((triggerClassified results).sum : ℚ)) /
        ((baselineClassified results).sum : ℚ) * 100 := by
  have h := compFold_pools results ⟨[], [], []⟩
  unfold overallCompression baselineTotal triggerTotal collectResults
  rw [h.1, h.2]
  simp

/-! ### C9: top/bottom compressed lists -/

/-- A run with exactly one paired group: one baseline record and one trigger
record for the same topic. -/
def c9demo : List CompRecord :=
  [⟨"t", "Analyse t from multiple perspectives.", 4⟩,
   ⟨"t", "Most experts agree about t.", 1⟩]

/-- C9 counterexample.  With one paired group the claim promises a bottom
list of `min 10 1 = 1` groups, but the source prints the bottom list only
inside `if (topicCompressions.length > 10)`: here it is absent. -/
theorem bottomCompressed_absent_for_small_runs :
    (topicCompressions c9demo).length = 1 ∧ (topCompressed c9demo).length = 1 ∧
      bottomCompressed c9demo = none := by decide

/-- C9 amended.  The top list always has `min 10 pairedGroupCount` entries and
is sorted descending by the stored one-decimal-rounded per-group compression
(the quantity the comparator actually compares; rounding ties keep insertion
order); the bottom list is presented only when `pairedGroupCount > 10`, in
which case it is the reversal of the last ten entries of that descending
order (so exactly 10 entries, ascending from the least-compressed end). -/
theorem topBottom_lists_shape (results : List CompRecord) :
    (topCompressed results).length = min 10 (topicCompressions results).length ∧
    (topCompressed results).Pairwise (fun a b => b.compression ≤ a.compression) ∧
    bottomCompressed results =
      (if 10 < (topicCompressions results).length then
        some (((topicCompressions results).drop
          ((topicCompressions results).length - 10)).reverse)
      else none) ∧
    (bottomCompressed results).map List.length =
      (if 10 < (topicCompressions results).length then some 10 else none) ∧
    (bottomCompressed results).elim True
      (fun bot => bot.Pairwise (fun a b => a.compression ≤ b.compression)) := by
  have hsorted : (topicCompressions results).Pairwise
      (fun a b => b.compression ≤ a.compression) := by
    unfold topicCompressions
    exact pairwise_sortDescBy _ _
  refine ⟨?_, ?_, ?_, ?_, ?_⟩
  · unfold topCompressed showCount
    simp only [List.length_take]
    omega
  · exact hsorted.sublist (List.take_sublist _ _)
  · unfold bottomCompressed showCount
    split_ifs with h
    · have hmin : min 10 (topicCompressions results).length = 10 := by omega
      rw [hmin]
    · rfl
  · unfold bottomCompressed showCount
    split_ifs with h
    · have hmin : min 10 (topicCompressions results).length = 10 := by omega
      rw [hmin]
      simp only [Option.map_some', List.length_reverse, List.length_drop]
      congr 1
      omega
    · rfl
  · unfold bottomCompressed showCount
    split_ifs with h
    · show List.Pairwise _ _
      rw [List.pairwise_reverse]
      exact hsorted.sublist (List.drop_sublist _ _)
    · exact trivial

/-! ## Sequence aggregator (`analyze_multiturn.js`)

One entry of the `metrics` array; the fields not consumed by the analyses
verified here (entropy, latency, response length, text preview) are
omitted. -/

structure TurnMetric where
  model : String
  topic : String
  dissenter : String
  turn : ℕ
  tokens : ℕ
  hedgeCount : ℕ
deriving DecidableEq

/-- Mean of a list of rationals (`reduce((sum, m) => …) / length`). -/
def meanQ (l : List ℚ) : ℚ := l.sum / l.length

/-- The four escape/recovery verdicts printed by the escape test. -/
inductive EscapeClass where
  | fullEscape
  | escapeSuccessful
  | partialEscape
  | escapeFailed
deriving DecidableEq

structure EscapeOutcome where
  recovery : ℚ
  hedgeRecovery : ℚ
  classification : EscapeClass
deriving DecidableEq

/-- The escape test (turn 1 vs turn 5) of `analyzeResults`:
`recovery = t5Tokens / t1Tokens * 100`, hedge recovery analogously, then the
fixed threshold cascade; it only runs when both turns have records. -/
def escapeTest (metrics : List TurnMetric) : Option EscapeOutcome :=
  let turn1 := metrics.filter (fun m => m.turn == 1)
  let turn5 := metrics.filter (fun m => m.turn == 5)
  if turn1 ≠ [] ∧ turn5 ≠ [] then
    let t1Tokens := meanQ (turn1.map (fun m => (m.tokens : ℚ)))
    let t5Tokens := meanQ (turn5.map (fun m => (m.tokens : ℚ)))
    let recovery := t5Tokens / t1Tokens * 100
    let t1Hedge := meanQ (turn1.map (fun m => (m.hedgeCount : ℚ)))
    let t5Hedge := meanQ (turn5.map (fun m => (m.hedgeCount : ℚ)))
    let hedgeRecovery := t5Hedge / t1Hedge * 100
    some { recovery := recovery
           hedgeRecovery := hedgeRecovery
           classification :=
             if 95 ≤ recovery ∧ 95 ≤ hedgeRecovery then EscapeClass.fullEscape
             else if 80 ≤ recovery ∧ 80 ≤ hedgeRecovery then EscapeClass.escapeSuccessful
             else if 60 ≤ recovery ∨ 60 ≤ hedgeRecovery then EscapeClass.partialEscape
             else EscapeClass.escapeFailed }
  else none

/-- The escape classification as the specification words it: both recoveries
≥ 95 % mean full escape, otherwise both ≥ 80 % mean escape successful,
otherwise either ≥ 60 % means partial escape, otherwise the escape failed. -/
def specEscapeClassification (recovery hedgeRecovery : ℚ) : EscapeClass :=
  if 95 ≤ recovery ∧ 95 ≤ hedgeRecovery then EscapeClass.fullEscape
  else if 80 ≤ recovery ∧ 80 ≤ hedgeRecovery then EscapeClass.escapeSuccessful
  else if 60 ≤ recovery ∨ 60 ≤ hedgeRecovery then EscapeClass.partialEscape
  else EscapeClass.escapeFailed

/-- C5.  Whenever turn-1 and turn-5 records both exist, the escape analysis
reports `recovery = meanTokens₅ / meanTokens₁ × 100`, hedge recovery
analogously, and classifies by the spec's cascade; with mean turn-1 tokens
412.5 and mean turn-5 tokens 476.5 the recovery is 3812/33 ≈ 115.5 %, which
is classified a full escape as soon as the hedge recovery is also ≥ 95 %. -/
theorem escapeTest_formula_and_classification (metrics : List TurnMetric)
    (h1 : metrics.filter (fun m => m.turn == 1) ≠ [])
    (h5 : metrics.filter (fun m => m.turn == 5) ≠ []) :
    (escapeTest metrics = some
      { recovery :=
          meanQ ((metrics.filter (fun m => m.turn == 5)).map (fun m => (m.tokens : ℚ))) /
            meanQ ((metrics.filter (fun m => m.turn == 1)).map (fun m => (m.tokens : ℚ))) * 100
        hedgeRecovery :=
          meanQ ((metrics.filter (fun m => m.turn == 5)).map (fun m => (m.hedgeCount : ℚ))) /
            meanQ ((metrics.filter (fun m => m.turn == 1)).map (fun m => (m.hedgeCount : ℚ))) * 100
        classification :=
          specEscapeClassification
            (meanQ ((metrics.filter (fun m => m.turn == 5)).map (fun m => (m.tokens : ℚ))) /
              meanQ ((metrics.filter (fun m => m.turn == 1)).map (fun m => (m.tokens : ℚ))) * 100)
            (meanQ ((metrics.filter (fun m => m.turn == 5)).map (fun m => (m.hedgeCount : ℚ))) /
              meanQ ((metrics.filter (fun m => m.turn == 1)).map (fun m => (m.hedgeCount : ℚ))) * 100) }) ∧
    (meanQ ((metrics.filter (fun m => m.turn == 1)).map (fun m => (m.tokens : ℚ))) = 825 / 2 →
     meanQ ((metrics.filter (fun m => m.turn == 5)).map (fun m => (m.tokens : ℚ))) = 953 / 2 →
     ∀ r, escapeTest metrics = some r →
       r.recovery = 3812 / 33 ∧ 1155 / 10 ≤ r.recovery ∧ r.recovery < 1156 / 10 ∧
         (95 ≤ r.hedgeRecovery → r.classification = EscapeClass.fullEscape)) := by
  constructor
  · unfold escapeTest specEscapeClassification
    rw [if_pos ⟨h1, h5⟩]
  · intro hm1 hm5 r hr
    unfold escapeTest at hr
    rw [if_pos ⟨h1, h5⟩] at hr
    rw [hm1, hm5] at hr
    have hrec : r.recovery = 3812 / 33 := by
      rw [← Option.some_inj.mp hr]
      norm_num
    refine ⟨hrec, by rw [hrec]; norm_num, by rw [hrec]; norm_num, ?_⟩
    intro hh
    rw [← Option.some_inj.mp hr] at hh ⊢
    simp only
    rw [if_pos]
    constructor
    · norm_num
    · simpa using hh

/-- The concrete run behind the C5 example: two turn-1 records with 412 and
413 tokens (mean 412.5) and two turn-5 records with 476 and 477 tokens
(mean 476.5); every hedge count is 1, so hedge recovery is 100 %. -/
def c5demo : List TurnMetric :=
  [⟨"m", "t", "d", 1, 412, 1⟩, ⟨"m", "t", "d", 1, 413, 1⟩,
   ⟨"m", "t", "d", 5, 476, 1⟩, ⟨"m", "t", "d", 5, 477, 1⟩]

/-- C5 witness: the escape test on `c5demo` reports recovery 3812/33 ≈ 115.5 %
and a full escape. -/
theorem escapeTest_formula_and_classification_witness :
    escapeTest c5demo = some ⟨3812 / 33, 100, EscapeClass.fullEscape⟩ := by
  have h := (escapeTest_formula_and_classification c5demo (by decide) (by decide)).1
  rw [h]
  norm_num [c5demo, meanQ, specEscapeClassification]

/-! ### C7: dissenter (dimension) bias at turn 3 -/

/-- Mean hedge count of the turn-3 records of one dissenter. -/
def avgHedgeFor (turn3 : List TurnMetric) (d : String) : ℚ :=
  meanQ ((turn3.filter (fun m => m.dissenter == d)).map (fun m => (m.hedgeCount : ℚ)))

/-- The printed dissenter comparison: extreme groups, percentage difference,
significance flag. -/
structure DissenterComparison where
  highest : String
  lowest : String
  hedgeDiff : ℚ
  significant : Bool
deriving DecidableEq

/-- `const turn3 = metrics.filter(m => m.turn === 3)`. -/
def turn3Of (metrics : List TurnMetric) : List TurnMetric :=
  metrics.filter (fun m => m.turn == 3)

/-- `const dissenters = [...new Set(turn3.map(m => m.dissenter))]`. -/
def dissentersOf (metrics : List TurnMetric) : List String :=
  firstDedup ((turn3Of metrics).map (fun m => m.dissenter))

/-- The dissenter-comparison block of `analyzeResults`: runs only on the
turn-3 records and only when at least two distinct dissenters appear there;
sorts dissenters by mean hedge count (descending), takes the first and last,
and reports `hedgeDiff = (highest − lowest) / lowest × 100`, flagged
significant when `Math.abs(hedgeDiff) > 20`. -/
def dissenterComparison (metrics : List TurnMetric) : Option DissenterComparison :=
  if 2 ≤ (dissentersOf metrics).length then
    let sorted := sortDescBy (avgHedgeFor (turn3Of metrics)) (dissentersOf metrics)
    let highest := sorted.headD ""
    let lowest := sorted.getLastD ""
    let hedgeDiff :=
      (avgHedgeFor (turn3Of metrics) highest - avgHedgeFor (turn3Of metrics) lowest) /
        avgHedgeFor (turn3Of metrics) lowest * 100
    some { highest := highest
           lowest := lowest
           hedgeDiff := hedgeDiff
           significant := decide (20 < |hedgeDiff|) }
  else none

lemma headD_mem {α : Type} (l : List α) (d : α) (h : l ≠ []) : l.headD d ∈ l := by
  cases l with
  | nil => exact absurd rfl h
  | cons a t => simp

lemma getLastD_mem {α : Type} : ∀ (l : List α) (d : α), l ≠ [] → l.getLastD d ∈ l := by
  intro l
  induction l with
  | nil => intro d h; exact absurd rfl h
  | cons a t ih =>
    intro d _
    rw [List.getLastD_cons]
    cases t with
    | nil => simp [List.getLastD]
    | cons b t2 => exact List.mem_cons_of_mem a (ih a (by simp))

lemma headD_max {α : Type} (key : α → ℚ) (l : List α) (d : α)
    (hp : l.Pairwise (fun a b => key b ≤ key a)) :
    ∀ b ∈ l, key b ≤ key (l.headD d) := by
  cases l with
  | nil => intro b hb; exact absurd hb (List.not_mem_nil b)
  | cons a t =>
    intro b hb
    rcases List.mem_cons.mp hb with rfl | hbt
    · simp
    · simpa using List.rel_of_pairwise_cons hp hbt

lemma getLastD_min {α : Type} (key : α → ℚ) :
    ∀ (l : List α) (d : α), l.Pairwise (fun a b => key b ≤ key a) →
      ∀ b ∈ l, key (l.getLastD d) ≤ key b := by
  intro l
  induction l with
  | nil => intro d _ b hb; exact absurd hb (List.not_mem_nil b)
  | cons a t ih =>
    intro d hp b hb
    rw [List.getLastD_cons]
    cases t with
    | nil =>
      rcases List.mem_cons.mp hb with rfl | hbt
      · simp [List.getLastD]
      · exact absurd hbt (List.not_mem_nil b)
    | cons c t2 =>
      rcases List.mem_cons.mp hb with hba | hbt
      · subst hba
        exact List.rel_of_pairwise_cons hp (getLastD_mem (c :: t2) b (by simp))
      · exact ih a hp.of_cons b hbt

/-- C7.  The dissenter-bias comparison is skipped unless at least two distinct
dissenters appear at turn 3; when it runs it reports the percentage
difference between the highest and lowest per-dissenter mean hedge count
relative to the lowest, flagged significant exactly when the absolute
difference exceeds 20 %; with means 33/100 and 167/100 the difference is
13400/33 ≈ 406 % and is flagged, while equal means 67/100 give 0 % and are
not flagged. -/
theorem dissenterComparison_spec (metrics : List TurnMetric) :
    (dissenterComparison metrics = none ↔ (dissentersOf metrics).length < 2) ∧
    (dissenterComparison metrics).elim True (fun r =>
      r.highest ∈ dissentersOf metrics ∧ r.lowest ∈ dissentersOf metrics ∧
      (∀ d ∈ dissentersOf metrics,
        avgHedgeFor (turn3Of metrics) d ≤ avgHedgeFor (turn3Of metrics) r.highest) ∧
      (∀ d ∈ dissentersOf metrics,
        avgHedgeFor (turn3Of metrics) r.lowest ≤ avgHedgeFor (turn3Of metrics) d) ∧
      r.hedgeDiff =
        (avgHedgeFor (turn3Of metrics) r.highest - avgHedgeFor (turn3Of metrics) r.lowest) /
          avgHedgeFor (turn3Of metrics) r.lowest * 100 ∧
      (r.significant = true ↔ 20 < |r.hedgeDiff|)) ∧
    (∀ d1 d2, dissentersOf metrics = [d1, d2] →
      avgHedgeFor (turn3Of metrics) d1 = 33 / 100 →
      avgHedgeFor (turn3Of metrics) d2 = 167 / 100 →
      dissenterComparison metrics = some ⟨d2, d1, 13400 / 33, true⟩) ∧
    (∀ d1 d2, dissentersOf metrics = [d1, d2] →
      avgHedgeFor (turn3Of metrics) d1 = 67 / 100 →
      avgHedgeFor (turn3Of metrics) d2 = 67 / 100 →
      dissenterComparison metrics = some ⟨d1, d2, 0, false⟩) := by
  refine ⟨?_, ?_, ?_, ?_⟩
  · unfold dissenterComparison
    split_ifs with h
    · constructor
      · intro he; exact absurd he (by simp)
      · intro hlt; omega
    · constructor
      · intro _; omega
      · intro _; rfl
  · unfold dissenterComparison
    split_ifs with h
    · have hne : sortDescBy (avgHedgeFor (turn3Of metrics)) (dissentersOf metrics) ≠ [] := by
        intro he
        have hl := length_sortDescBy (avgHedgeFor (turn3Of metrics)) (dissentersOf metrics)
        rw [he] at hl
        simp only [List.length_nil] at hl
        omega
      refine ⟨?_, ?_, ?_, ?_, rfl, ?_⟩
      · exact (mem_sortDescBy _ _ _).mp (headD_mem _ "" hne)
      · exact (mem_sortDescBy _ _ _).mp (getLastD_mem _ "" hne)
      · intro d hd
        exact headD_max _ _ "" (pairwise_sortDescBy _ _) d ((mem_sortDescBy _ _ _).mpr hd)
      · intro d hd
        exact getLastD_min _ _ "" (pairwise_sortDescBy _ _) d ((mem_sortDescBy _ _ _).mpr hd)
      · exact decide_eq_true_iff
    · exact trivial
  · intro d1 d2 hds h1 h2
    unfold dissenterComparison
    rw [hds]
    rw [if_pos (by simp)]
    simp only [sortDescBy, insertDescBy, h1, h2]
    rw [if_neg (by norm_num)]
    simp only [List.headD, List.getLastD_cons, List.getLastD_nil, h1, h2]
    have hdiff : ((167 : ℚ) / 100 - 33 / 100) / (33 / 100) * 100 = 13400 / 33 := by norm_num
    rw [hdiff]
    have hsig : decide ((20 : ℚ) < |13400 / 33|) = true := by
      rw [decide_eq_true_iff]
      rw [abs_of_pos (by norm_num)]
      norm_num
    rw [hsig]
  · intro d1 d2 hds h1 h2
    unfold dissenterComparison
    rw [hds]
    rw [if_pos (by simp)]
    simp only [sortDescBy, insertDescBy, h1, h2]
    rw [if_pos (by norm_num)]
    simp only [List.headD, List.getLastD_cons, List.getLastD_nil, h1, h2]
    have hdiff : ((67 : ℚ) / 100 - 67 / 100) / (67 / 100) * 100 = 0 := by norm_num
    rw [hdiff]
    have hsig : decide ((20 : ℚ) < |0|) = false := by
      simp
    rw [hsig]

/-- The concrete run behind the C7 example: 100 turn-3 records of dissenter
`d1` with 33 hedge words in total (mean 0.33) and 100 turn-3 records of
dissenter `d2` with 167 hedge words in total (mean 1.67). -/
def c7demo : List TurnMetric :=
  List.replicate 33 ⟨"m", "t", "d1", 3, 100, 1⟩ ++ List.replicate 67 ⟨"m", "t", "d1", 3, 100, 0⟩ ++
  List.replicate 67 ⟨"m", "t", "d2", 3, 100, 2⟩ ++ List.replicate 33 ⟨"m", "t", "d2", 3, 100, 1⟩

set_option maxRecDepth 8000 in
/-- C7 witness: on `c7demo` the comparison reports `d2` highest, `d1` lowest,
difference 13400/33 ≈ 406 %, flagged significant. -/
theorem dissenterComparison_spec_witness :
    dissenterComparison c7demo = some ⟨"d2", "d1", 13400 / 33, true⟩ := by
  refine (dissenterComparison_spec c7demo).2.2.1 "d1" "d2" (by decide) ?_ ?_
  · simp only [avgHedgeFor, turn3Of, c7demo, meanQ, List.filter_append, List.filter_replicate,
      List.map_append, List.map_replicate, List.sum_replicate, List.length_append,
      List.length_replicate, nsmul_eq_mul, String.reduceEq, beq_iff_eq, reduceIte,
      List.sum_nil, List.map_nil, List.length_nil]
    norm_num
  · simp only [avgHedgeFor, turn3Of, c7demo, meanQ, List.filter_append, List.filter_replicate,
      List.map_append, List.map_replicate, List.sum_replicate, List.length_append,
      List.length_replicate, nsmul_eq_mul, String.reduceEq, beq_iff_eq, reduceIte,
      List.sum_nil, List.map_nil, List.length_nil]
    norm_num

/-! ## Record normalizer / export writer (`export_for_r.js`) -/

/-- JavaScript truthiness of an optional string field (`undefined` and the
empty string are falsy). -/
def truthyS (s : Option String) : Bool :=
  match s with
  | some str => str ≠ ""
  | none => false

/-- JavaScript truthiness of an optional numeric field (`undefined` and `0`
are falsy). -/
def truthyN (n : Option ℕ) : Bool :=
  match n with
  | some k => k ≠ 0
  | none => false

/-- One raw result record as consumed by `export_for_r.js`; `varsTopic`,
`varsDissenter` and `varsTurn` are the explicit Shape-A fields, while
`conversationId` (from `r.metadata`) and `varsMessage` feed the legacy
Shape-B parsing path. -/
structure RawResult where
  varsTopic : Option String
  varsDissenter : Option String
  varsTurn : Option ℕ
  varsMessage : String
  conversationId : String
  outputText : String
  tokens : ℕ
  latency : ℕ
  providerId : String
deriving DecidableEq

/-- Turn inference from the prompt message, in the source's order: analytic
framing without "again" is turn 1, "Most experts agree" turn 2, the
dissenter introduction turn 3, "Given these conflicting views" turn 4, and
lowercase "analyse" together with "again" turn 5. -/
def inferTurn (msg : String) : Option ℕ :=
  if jsIncludes msg "Analyse" && jsIncludes msg "multiple perspectives" &&
      !jsIncludes msg "again" then some 1
  else if jsIncludes msg "Most experts agree" then some 2
  else if jsIncludes msg "I just read that Dr." then some 3
  else if jsIncludes msg "Given these conflicting views" then some 4
  else if jsIncludes msg "analyse" && jsIncludes msg "again" then some 5
  else none

/-- The variable-resolution logic of the `results.forEach` body: take the
explicit fields; if any is falsy, split the conversation id on `-` and, when
both parts are truthy, overwrite topic and dissenter and infer the turn from
the message (keeping the prior turn value when no pattern matches); skip the
record (`none`) when topic, dissenter or turn is still falsy. -/
def resolveVars (r : RawResult) : Option (String × String × ℕ) :=
  let step :=
    if !(truthyS r.varsTopic && truthyS r.varsDissenter && truthyN r.varsTurn) then
      let parts := splitOnDash r.conversationId.data []
      let topicFromId := parts.headD ""
      let dissenterFromId := parts.getD 1 ""
      if topicFromId ≠ "" && dissenterFromId ≠ "" then
        (some topicFromId, some dissenterFromId, (inferTurn r.varsMessage).orElse (fun _ => r.varsTurn))
      else (r.varsTopic, r.varsDissenter, r.varsTurn)
    else (r.varsTopic, r.varsDissenter, r.varsTurn)
  if truthyS step.1 && truthyS step.2.1 && truthyN step.2.2 then
    some (step.1.getD "", step.2.1.getD "", step.2.2.getD 0)
  else none

/-- The hedge lexicon of `export_for_r.js` (note the multi-word alternatives
`can be` and `tend to`). -/
def rHedgePhrases : List (List String) :=
  [["might"], ["could"], ["possibly"], ["perhaps"], ["may"], ["unclear"], ["various"],
   ["different"], ["some"], ["can", "be"], ["tend", "to"], ["generally"], ["often"]]

/-- The certainty lexicon of `export_for_r.js`. -/
def rCertaintyPhrases : List (List String) :=
  [["certain"], ["definitely"], ["clearly"], ["undoubtedly"], ["undisputed"], ["proven"],
   ["fact"], ["consensus"], ["agree"], ["must"], ["will"]]

/-- `hedgeWords` of one output text. -/
def hedgeWordsR (text : String) : ℕ := countFamily rHedgePhrases (tokenize text)

/-- `certaintyWords` of one output text. -/
def certaintyWordsR (text : String) : ℕ := countFamily rCertaintyPhrases (tokenize text)

/-- One row pushed onto `rows` (the entropy column, a display string, is
omitted). -/
structure ExportRow where
  model : String
  topic : String
  dissenter : String
  turn : ℕ
  tokens : ℕ
  hedgeCount : ℕ
  certaintyCount : ℕ
  latency : ℕ
deriving DecidableEq

/-- Build the row for a resolved record. -/
def mkRow (r : RawResult) (v : String × String × ℕ) : ExportRow :=
  { model := r.providerId
    topic := v.1
    dissenter := v.2.1
    turn := v.2.2
    tokens := r.tokens
    hedgeCount := hedgeWordsR r.outputText
    certaintyCount := certaintyWordsR r.outputText
    latency := r.latency }

/-- One iteration of the `results.forEach` loop: push a row for a resolvable
record, otherwise emit one skip warning and move on. -/
def exportStep (acc : List ExportRow × ℕ) (r : RawResult) : List ExportRow × ℕ :=
  match resolveVars r with
  | some v => (acc.1 ++ [mkRow r v], acc.2)
  | none => (acc.1, acc.2 + 1)

/-- The whole `results.forEach` loop: the accumulated `rows` and the number
of skip warnings. -/
def exportState (results : List RawResult) : List ExportRow × ℕ :=
  results.foldl exportStep ([], 0)

/-- Per-turn token total of the `byTurn` summary. -/
def byTurnTokens (rows : List ExportRow) (t : ℕ) : ℕ :=
  rows.foldl (fun s r => if r.turn == t then s + r.tokens else s) 0

/-- Per-turn hedge total of the `byTurn` summary. -/
def byTurnHedge (rows : List ExportRow) (t : ℕ) : ℕ :=
  rows.foldl (fun s r => if r.turn == t then s + r.hedgeCount else s) 0

/-- Per-turn row count of the `byTurn` summary. -/
def byTurnCount (rows : List ExportRow) (t : ℕ) : ℕ :=
  rows.foldl (fun s r => if r.turn == t then s + 1 else s) 0

/-- The records of `results` that resolve to turn `t`. -/
def resolvedToTurn (results : List RawResult) (t : ℕ) : List RawResult :=
  results.filter (fun r =>
    match resolveVars r with
    | some v => v.2.2 == t
    | none => false)


lemma exportFold (results : List RawResult) : ∀ acc : List ExportRow × ℕ,
    results.foldl exportStep acc =
      (acc.1 ++ results.filterMap (fun r => (resolveVars r).map (mkRow r)),
       acc.2 + (results.filter (fun r => (resolveVars r).isNone)).length) := by
  induction results with
  | nil => intro acc; simp
  | cons a l ih =>
    intro acc
    simp only [List.foldl_cons]
    rw [ih]
    cases h : resolveVars a with
    | some v =>
      simp [exportStep, h, List.filterMap_cons, List.filter_cons, List.append_assoc]
    | none =>
      simp [exportStep, h, List.filterMap_cons, List.filter_cons]
      omega

lemma byTurnTokens_sum (t : ℕ) (rows : List ExportRow) : ∀ init : ℕ,
    rows.foldl (fun s r => if r.turn == t then s + r.tokens else s) init =
      init + ((rows.filter (fun r => r.turn == t)).map (fun r => r.tokens)).sum := by
  induction rows with
  | nil => intro init; simp
  | cons a l ih =>
    intro init
    simp only [List.foldl_cons, List.filter_cons]
    rw [ih]
    cases hb : (a.turn == t)
    · simp [hb]
    · simp [hb, Nat.add_assoc]

lemma byTurnHedge_sum (t : ℕ) (rows : List ExportRow) : ∀ init : ℕ,
    rows.foldl (fun s r => if r.turn == t then s + r.hedgeCount else s) init =
      init + ((rows.filter (fun r => r.turn == t)).map (fun r => r.hedgeCount)).sum := by
  induction rows with
  | nil => intro init; simp
  | cons a l ih =>
    intro init
    simp only [List.foldl_cons, List.filter_cons]
    rw [ih]
    cases hb : (a.turn == t)
    · simp [hb]
    · simp [hb, Nat.add_assoc]

lemma byTurnCount_sum (t : ℕ) (rows : List ExportRow) : ∀ init : ℕ,
    rows.foldl (fun s r => if r.turn == t then s + 1 else s) init =
      init + (rows.filter (fun r => r.turn == t)).length := by
  induction rows with
  | nil => intro init; simp
  | cons a l ih =>
    intro init
    simp only [List.foldl_cons, List.filter_cons]
    rw [ih]
    cases hb : (a.turn == t)
    · simp [hb]
    · simp [hb]
      omega

lemma rows_skip_partition (results : List RawResult) :
    (results.filterMap (fun r => (resolveVars r).map (mkRow r))).length +
      (results.filter (fun r => (resolveVars r).isNone)).length = results.length := by
  induction results with
  | nil => rfl
  | cons a l ih =>
    cases h : resolveVars a with
    | some v =>
      simp only [List.filterMap_cons, h, Option.map_some', List.filter_cons,
        Option.isNone_some, Bool.false_eq_true, if_false, List.length_cons]
      omega
    | none =>
      simp only [List.filterMap_cons, h, Option.map_none', List.filter_cons,
        Option.isNone_none, if_true, List.length_cons]
      omega

lemma exportRows_filter_turn {β : Type} (t : ℕ) (f : ExportRow → β) (g : RawResult → β)
    (hf : ∀ r v, f (mkRow r v) = g r) (results : List RawResult) :
    ((results.filterMap (fun r => (resolveVars r).map (mkRow r))).filter
        (fun row => row.turn == t)).map f = (resolvedToTurn results t).map g := by
  induction results with
  | nil => simp [resolvedToTurn]
  | cons a l ih =>
    simp only [resolvedToTurn] at ih ⊢
    cases h : resolveVars a with
    | some v =>
      cases hb : (v.2.2 == t)
      · simp [List.filterMap_cons, h, List.filter_cons, mkRow, hb, ih]
      · simp [List.filterMap_cons, h, List.filter_cons, mkRow, hb, ih]
        exact hf a v
    | none =>
      simp [List.filterMap_cons, h, List.filter_cons, ih]

/-- C8.  A record whose topic, dissenter or turn stays unresolved after both
the explicit-field path and the legacy parsing path is skipped, not fatal:
the skip counter counts exactly the unresolvable records, rows plus skips
partition the input, and every per-turn aggregate total (tokens, hedge
words, sample count) is the sum over exactly the non-skipped records that
resolve to that turn. -/
theorem exportForR_skips_unresolvable (results : List RawResult) (t : ℕ) :
    (exportState results).2 =
      (results.filter (fun r => (resolveVars r).isNone)).length ∧
    (exportState results).1.length + (exportState results).2 = results.length ∧
    byTurnTokens (exportState results).1 t =
      ((resolvedToTurn results t).map (fun r => r.tokens)).sum ∧
    byTurnHedge (exportState results).1 t =
      ((resolvedToTurn results t).map (fun r => hedgeWordsR r.outputText)).sum ∧
    byTurnCount (exportState results).1 t = (resolvedToTurn results t).length := by
  have hfold := exportFold results ([], 0)
  have hrows : (exportState results).1 =
      results.filterMap (fun r => (resolveVars r).map (mkRow r)) := by
    unfold exportState
    rw [hfold]
    simp
  have hskip : (exportState results).2 =
      (results.filter (fun r => (resolveVars r).isNone)).length := by
    unfold exportState
    rw [hfold]
    simp
  refine ⟨hskip, ?_, ?_, ?_, ?_⟩
  · rw [hrows, hskip]
    exact rows_skip_partition results
  · rw [hrows]
    unfold byTurnTokens
    rw [byTurnTokens_sum t _ 0,
      exportRows_filter_turn t (fun r => r.tokens) (fun r => r.tokens) (fun _ _ => rfl) results]
    simp
  · rw [hrows]
    unfold byTurnHedge
    rw [byTurnHedge_sum t _ 0,
      exportRows_filter_turn t (fun r => r.hedgeCount) (fun r => hedgeWordsR r.outputText)
        (fun _ _ => rfl) results]
    simp
  · rw [hrows]
    unfold byTurnCount
    rw [byTurnCount_sum t _ 0]
    have hlen := congrArg List.length
      (exportRows_filter_turn t (fun r => r.tokens) (fun r => r.tokens) (fun _ _ => rfl) results)
    simp only [List.length_map] at hlen
    rw [hlen]
    simp

/-! ## Lexical metrics (`containment.js`)

Entropy is real-valued (`Math.log2`), so this layer lives in `ℝ`. -/

/-- The values of the `frequencies` object, in first-occurrence key order. -/
def tokenFreqs (tokens : List String) : List ℕ :=
  (firstDedup tokens).map (fun tk => tokens.count tk)

/-- `probabilities.reduce((sum, p) => sum - p * Math.log2(p), 0)` over the
frequency distribution of a token stream. -/
noncomputable def entropyOfTokens (tokens : List String) : ℝ :=
  ((tokenFreqs tokens).map
    (fun (f : ℕ) => -((f : ℝ) / tokens.length * Real.logb 2 ((f : ℝ) / tokens.length)))).sum

/-- `calculateEntropy`: zero for empty or tokenless text, otherwise Shannon
entropy of the token frequency distribution. -/
noncomputable def calculateEntropy (text : String) : ℝ :=
  if tokenize text = [] then 0 else entropyOfTokens (tokenize text)

lemma firstDedupAux_of_nodup :
    ∀ (l seen : List String), l.Nodup → (∀ a ∈ l, a ∉ seen) → firstDedupAux l seen = l := by
  intro l
  induction l with
  | nil => intro seen _ _; rfl
  | cons a t ih =>
    intro seen hnd hsn
    rw [firstDedupAux]
    rw [if_neg (hsn a (List.mem_cons_self a t))]
    congr 1
    refine ih (a :: seen) hnd.of_cons ?_
    intro b hb hmem
    rcases List.mem_cons.mp hmem with rfl | hbs
    · exact (List.nodup_cons.mp hnd).1 hb
    · exact hsn b (List.mem_cons_of_mem a hb) hbs

lemma firstDedup_of_nodup (l : List String) (h : l.Nodup) : firstDedup l = l :=
  firstDedupAux_of_nodup l [] h (fun _ _ hc => (List.not_mem_nil _) hc)

lemma entropyOfTokens_nodup (tokens : List String) (h : tokens.Nodup)
    (hne : tokens ≠ []) :
    entropyOfTokens tokens = Real.logb 2 tokens.length := by
  have hn : 0 < tokens.length := List.length_pos.mpr hne
  have hnR : (tokens.length : ℝ) ≠ 0 := by positivity
  unfold entropyOfTokens tokenFreqs
  rw [firstDedup_of_nodup _ h]
  have hmap : tokens.map (fun tk => tokens.count tk) = tokens.map (fun _ => 1) := by
    refine List.map_congr_left ?_
    intro tk htk
    exact List.count_eq_one_of_mem h htk
  rw [hmap, List.map_map]
  have hconst : (tokens.map
      ((fun (f : ℕ) => -((f : ℝ) / tokens.length * Real.logb 2 ((f : ℝ) / tokens.length))) ∘
        fun _ => 1)) =
      List.replicate tokens.length
        (-((1 : ℝ) / tokens.length * Real.logb 2 ((1 : ℝ) / tokens.length))) := by
    rw [← List.map_const']
    refine List.map_congr_left ?_
    intro tk _
    simp
  rw [hconst, List.sum_replicate, nsmul_eq_mul]
  rw [one_div, Real.logb_inv]
  field_simp

lemma calculateEntropy_of_nodup (text : String) (h : (tokenize text).Nodup)
    (hne : tokenize text ≠ []) :
    calculateEntropy text = Real.logb 2 (tokenize text).length := by
  unfold calculateEntropy
  rw [if_neg hne]
  exact entropyOfTokens_nodup _ h hne

/-! ## Pairwise detector: consensus collapse (`detectConsensusCollapse`) -/

/-- `entropyDrop`: relative entropy drop from baseline, `0` when the baseline
entropy is not positive. -/
noncomputable def consensusDrop (response baseline : String) : ℝ :=
  if 0 < calculateEntropy baseline then
    (calculateEntropy baseline - calculateEntropy response) / calculateEntropy baseline
  else 0

/-- The record returned by `detectConsensusCollapse`. -/
structure ConsensusResult where
  detected : Bool
  entropyDrop : ℝ
  responseEntropy : ℝ
  baselineEntropy : ℝ
  confidence : ℝ

open Classical in
/-- `detectConsensusCollapse(response, baseline, threshold = 0.30)`:
`detected = entropyDrop > threshold && baselineEntropy > 0` and
`confidence = detected ? Math.min(entropyDrop / threshold, 1.0) : 0`. -/
noncomputable def detectConsensusCollapse (response baseline : String)
    (threshold : ℝ) : ConsensusResult :=
  { detected :=
      decide (threshold < consensusDrop response baseline ∧ 0 < calculateEntropy baseline)
    entropyDrop := consensusDrop response baseline
    responseEntropy := calculateEntropy response
    baselineEntropy := calculateEntropy baseline
    confidence :=
      if threshold < consensusDrop response baseline ∧ 0 < calculateEntropy baseline then
        min (consensusDrop response baseline / threshold) 1
      else 0 }

/-- Baseline of the C1 counterexample: four distinct tokens, entropy
`log₂ 4 = 2`. -/
def c1ceBaseline : String := "a b c d"

/-- Response of the C1 counterexample: three distinct tokens, entropy
`log₂ 3 ≈ 1.585`, a relative drop of about 20.75 % — positive but below the
30 % threshold. -/
def c1ceResponse : String := "a b c"

lemma logb_two_three_lb : (7 : ℝ) / 5 ≤ Real.logb 2 3 := by
  have hlog2 : (0 : ℝ) < Real.log 2 := Real.log_pos (by norm_num)
  have h1 : Real.log ((2 : ℝ) ^ (7 : ℕ)) ≤ Real.log ((3 : ℝ) ^ (5 : ℕ)) := by
    rw [Real.log_le_log_iff (by positivity) (by positivity)]
    norm_num
  rw [Real.log_pow, Real.log_pow] at h1
  rw [Real.logb, div_le_div_iff (by norm_num) hlog2]
  push_cast at h1
  linarith

lemma logb_two_three_ub : Real.logb 2 3 < 2 := by
  have h4 : Real.logb 2 ((2 : ℝ) ^ (2 : ℕ)) = 2 := by
    rw [Real.logb_pow, Real.logb_self_eq_one (by norm_num)]
    norm_num
  have h34 : Real.logb 2 3 < Real.logb 2 ((2 : ℝ) ^ (2 : ℕ)) := by
    refine Real.logb_lt_logb (by norm_num) (by norm_num) ?_
    norm_num
  linarith

lemma entropy_c1ceBaseline : calculateEntropy c1ceBaseline = 2 := by
  have h := calculateEntropy_of_nodup c1ceBaseline (by decide) (by decide)
  rw [h, show (tokenize c1ceBaseline).length = 4 from rfl]
  rw [show ((4 : ℕ) : ℝ) = (2 : ℝ) ^ (2 : ℕ) by norm_num]
  rw [Real.logb_pow, Real.logb_self_eq_one (by norm_num)]
  norm_num

lemma entropy_c1ceResponse : calculateEntropy c1ceResponse = Real.logb 2 3 := by
  have h := calculateEntropy_of_nodup c1ceResponse (by decide) (by decide)
  rw [h, show (tokenize c1ceResponse).length = 3 from rfl]
  norm_num

/-- C1 counterexample.  On these texts the drop is positive but below the
threshold, so the source reports confidence `0`, while the claim's
unconditional formula `min(drop/threshold, 1)` is ≈ 0.69: the formula only
holds when `detected` is true. -/
theorem consensusCollapse_confidence_counterexample :
    (detectConsensusCollapse c1ceResponse c1ceBaseline 0.30).confidence ≠
      min ((detectConsensusCollapse c1ceResponse c1ceBaseline 0.30).entropyDrop / 0.30) 1 := by
  have hlb := logb_two_three_lb
  have hub := logb_two_three_ub
  have hdrop : consensusDrop c1ceResponse c1ceBaseline = (2 - Real.logb 2 3) / 2 := by
    unfold consensusDrop
    rw [entropy_c1ceBaseline, entropy_c1ceResponse, if_pos (by norm_num)]
  have hdle : ¬ ((0.30 : ℝ) < consensusDrop c1ceResponse c1ceBaseline) := by
    rw [hdrop]
    rw [not_lt, div_le_iff (by norm_num : (0 : ℝ) < 2)]
    norm_num
    linarith
  have hdpos : 0 < consensusDrop c1ceResponse c1ceBaseline := by
    rw [hdrop]
    apply div_pos
    · linarith
    · norm_num
  simp only [detectConsensusCollapse]
  rw [if_neg (fun hc => hdle hc.1)]
  have hmin : 0 < min (consensusDrop c1ceResponse c1ceBaseline / 0.30) 1 := by
    apply lt_min
    · apply div_pos hdpos
      norm_num
    · norm_num
  exact ne_of_lt hmin

/-- C1 amended.  The consensus-collapse check computes
`drop = (baselineEntropy − responseEntropy)/baselineEntropy` when
`baselineEntropy > 0` and `0` otherwise, detects exactly when
`drop > threshold` (for a non-negative threshold), and reports confidence
`min(drop/threshold, 1)` when detected and `0` otherwise; with baseline
entropy 7 and response entropy 3 at the default threshold 0.30 it detects
with drop `4/7` and confidence exactly `1`. -/
theorem detectConsensusCollapse_spec (response baseline : String) (threshold : ℝ)
    (hth : 0 ≤ threshold) :
    (detectConsensusCollapse response baseline threshold).entropyDrop =
      (if 0 < calculateEntropy baseline then
        (calculateEntropy baseline - calculateEntropy response) / calculateEntropy baseline
      else 0) ∧
    ((detectConsensusCollapse response baseline threshold).detected = true ↔
      threshold < (detectConsensusCollapse response baseline threshold).entropyDrop) ∧
    ((detectConsensusCollapse response baseline threshold).detected = true →
      (detectConsensusCollapse response baseline threshold).confidence =
        min ((detectConsensusCollapse response baseline threshold).entropyDrop / threshold) 1) ∧
    ((detectConsensusCollapse response baseline threshold).detected = false →
      (detectConsensusCollapse response baseline threshold).confidence = 0) ∧
    (calculateEntropy baseline = 7 → calculateEntropy response = 3 → threshold = 0.30 →
      (detectConsensusCollapse response baseline threshold).detected = true ∧
      (detectConsensusCollapse response baseline threshold).entropyDrop = 4 / 7 ∧
      (detectConsensusCollapse response baseline threshold).confidence = 1) := by
  simp only [detectConsensusCollapse]
  refine ⟨rfl, ?_, ?_, ?_, ?_⟩
  · rw [decide_eq_true_iff]
    constructor
    · intro hc
      exact hc.1
    · intro hc
      by_cases hbe : 0 < calculateEntropy baseline
      · exact ⟨hc, hbe⟩
      · exfalso
        unfold consensusDrop at hc
        rw [if_neg hbe] at hc
        linarith
  · intro hdet
    rw [decide_eq_true_iff] at hdet
    rw [if_pos hdet]
  · intro hdet
    rw [decide_eq_false_iff_not] at hdet
    rw [if_neg hdet]
  · intro hb hr hth30
    have hbe : (0 : ℝ) < calculateEntropy baseline := by rw [hb]; norm_num
    have hdrop : consensusDrop response baseline = 4 / 7 := by
      unfold consensusDrop
      rw [hb, hr, if_pos (by norm_num)]
      norm_num
    have hp : threshold < consensusDrop response baseline ∧
        0 < calculateEntropy baseline := by
      rw [hdrop, hth30]
      refine ⟨by norm_num, hbe⟩
    refine ⟨by rw [decide_eq_true_iff]; exact hp, hdrop, ?_⟩
    rw [if_pos hp, hdrop, hth30]
    rw [min_eq_right]
    norm_num

/-- Baseline text of the C1 example: 128 distinct tokens, entropy
`log₂ 128 = 7`. -/
def c1exBaseline : String :=
  "a1 a2 a3 a4 a5 a6 a7 a8 a9 a10 a11 a12 a13 a14 a15 a16 a17 a18 a19 a20 a21 a22 a23 a24 a25 a26 a27 a28 a29 a30 a31 a32 a33 a34 a35 a36 a37 a38 a39 a40 a41 a42 a43 a44 a45 a46 a47 a48 a49 a50 a51 a52 a53 a54 a55 a56 a57 a58 a59 a60 a61 a62 a63 a64 a65 a66 a67 a68 a69 a70 a71 a72 a73 a74 a75 a76 a77 a78 a79 a80 a81 a82 a83 a84 a85 a86 a87 a88 a89 a90 a91 a92 a93 a94 a95 a96 a97 a98 a99 a100 a101 a102 a103 a104 a105 a106 a107 a108 a109 a110 a111 a112 a113 a114 a115 a116 a117 a118 a119 a120 a121 a122 a123 a124 a125 a126 a127 a128"

/-- Response text of the C1 example: 8 distinct tokens, entropy
`log₂ 8 = 3`. -/
def c1exResponse : String := "b1 b2 b3 b4 b5 b6 b7 b8"

set_option maxRecDepth 40000 in
lemma entropy_c1exBaseline : calculateEntropy c1exBaseline = 7 := by
  have h := calculateEntropy_of_nodup c1exBaseline (by decide) (by decide)
  rw [h, show (tokenize c1exBaseline).length = 128 from rfl]
  rw [show ((128 : ℕ) : ℝ) = (2 : ℝ) ^ (7 : ℕ) by norm_num]
  rw [Real.logb_pow, Real.logb_self_eq_one (by norm_num)]
  norm_num

set_option maxRecDepth 40000 in
lemma entropy_c1exResponse : calculateEntropy c1exResponse = 3 := by
  have h := calculateEntropy_of_nodup c1exResponse (by decide) (by decide)
  rw [h, show (tokenize c1exResponse).length = 8 from rfl]
  rw [show ((8 : ℕ) : ℝ) = (2 : ℝ) ^ (3 : ℕ) by norm_num]
  rw [Real.logb_pow, Real.logb_self_eq_one (by norm_num)]
  norm_num

/-- C1 witness: the concrete texts with entropies 7 and 3 at threshold 0.30
detect with drop `4/7` and confidence `1`. -/
theorem detectConsensusCollapse_spec_witness :
    (0 : ℝ) ≤ 0.30 ∧
    ((detectConsensusCollapse c1exResponse c1exBaseline 0.30).detected = true ∧
     (detectConsensusCollapse c1exResponse c1exBaseline 0.30).entropyDrop = 4 / 7 ∧
     (detectConsensusCollapse c1exResponse c1exBaseline 0.30).confidence = 1) :=
  ⟨by norm_num,
   (detectConsensusCollapse_spec c1exResponse c1exBaseline 0.30 (by norm_num)).2.2.2.2
     entropy_c1exBaseline entropy_c1exResponse rfl⟩

/-! ## Pairwise detector: recursive loop (`detectRecursiveLoop`) -/

/-- Sentence terminators of the sentence segmenter. -/
def isSentenceEnd (c : Char) : Bool := c == '.' || c == '!' || c == '?'

/-- `doc.sentences().out('array')`: split on sentence terminators, keeping
only chunks with visible content. -/
def splitSentences (text : String) : List String :=
  (chunksBy isSentenceEnd text.data []).filter
    (fun s => s.data.any (fun c => !c.isWhitespace))

/-- Backreference phrases (`/\b(as I|as we|I mentioned|we discussed|as stated|as noted)\b/gi`). -/
def selfRefFam1 : List (List String) :=
  [["as", "i"], ["as", "we"], ["i", "mentioned"], ["we", "discussed"],
   ["as", "stated"], ["as", "noted"]]

/-- Declaration verbs (`/\b(this (shows|demonstrates|proves|confirms))\b/gi`). -/
def selfRefFam2 : List (List String) :=
  [["this", "shows"], ["this", "demonstrates"], ["this", "proves"], ["this", "confirms"]]

/-- Logical connectives (`/\b(therefore|thus|hence|consequently)\b/gi`). -/
def selfRefFam3 : List (List String) :=
  [["therefore"], ["thus"], ["hence"], ["consequently"]]

/-- Entailment phrases (`/\b(it follows that|this means that)\b/gi`). -/
def selfRefFam4 : List (List String) :=
  [["it", "follows", "that"], ["this", "means", "that"]]

/-- Total self-reference matches of one sentence, summed over the four
pattern families. -/
def sentenceSelfRefCount (sentence : String) : ℕ :=
  countFamily selfRefFam1 (tokenize sentence) + countFamily selfRefFam2 (tokenize sentence) +
    countFamily selfRefFam3 (tokenize sentence) + countFamily selfRefFam4 (tokenize sentence)

/-- `recursionDepth = sentences.length > 0 ? selfRefCount / sentences.length : 0`. -/
noncomputable def recursionDepth (text : String) : ℝ :=
  if 0 < (splitSentences text).length then
    (((splitSentences text).map sentenceSelfRefCount).sum : ℝ) / (splitSentences text).length
  else 0

/-- The record returned by `detectRecursiveLoop` (the `patterns` diagnostic
list is omitted). -/
structure RecursiveResult where
  detected : Bool
  depth : ℝ
  confidence : ℝ

open Classical in
/-- `detectRecursiveLoop(text)`: zero result on blank text, otherwise
`detected = depth > 0.3` and `confidence = min(depth / 0.5, 1)`. -/
noncomputable def detectRecursiveLoop (text : String) : RecursiveResult :=
  if text.data.all (fun c => c.isWhitespace) then
    { detected := false, depth := 0, confidence := 0 }
  else
    { detected := decide ((0.3 : ℝ) < recursionDepth text)
      depth := recursionDepth text
      confidence := min (recursionDepth text / 0.5) 1 }

/-- C6 counterexample.  The one-sentence text `"Therefore thus"` contains two
connective matches, so `depth = 2/1 = 2 > 1`: matches are counted per
occurrence, not per sentence, and the claimed upper bound `depth ≤ 1`
fails. -/
theorem recursionDepth_exceeds_one :
    (detectRecursiveLoop "Therefore thus").depth = 2 ∧
      ¬ (detectRecursiveLoop "Therefore thus").depth ≤ 1 := by
  have hdepth : recursionDepth "Therefore thus" = 2 := by
    unfold recursionDepth
    rw [show splitSentences "Therefore thus" = ["Therefore thus"] from rfl]
    simp only [List.map_cons, List.map_nil, List.length_cons, List.length_nil,
      List.sum_cons, List.sum_nil]
    rw [show sentenceSelfRefCount "Therefore thus" = 2 from rfl]
    norm_num
  have hd : (detectRecursiveLoop "Therefore thus").depth = 2 := by
    simp only [detectRecursiveLoop]
    rw [if_neg (by decide)]
    exact hdepth
  refine ⟨hd, ?_⟩
  rw [hd]
  norm_num

/-- C6 amended.  For every text with visible content the recursion depth is
`totalMatches / sentenceCount` and is non-negative, but it is not bounded by
1: a sentence can contain several self-reference matches. -/
theorem recursionDepth_nonneg (text : String)
    (hne : ¬ text.data.all (fun c => c.isWhitespace) = true) :
    0 ≤ (detectRecursiveLoop text).depth ∧
    (detectRecursiveLoop text).depth =
      (if 0 < (splitSentences text).length then
        (((splitSentences text).map sentenceSelfRefCount).sum : ℝ) /
          (splitSentences text).length
      else 0) := by
  simp only [detectRecursiveLoop]
  rw [if_neg hne]
  refine ⟨?_, rfl⟩
  unfold recursionDepth
  split_ifs with h
  · positivity
  · exact le_refl 0

/-- C6 amended-claim witness at a concrete non-blank text. -/
theorem recursionDepth_nonneg_witness :
    ¬ ("It follows that this shows nothing.".data.all (fun c => c.isWhitespace)) = true ∧
    (0 ≤ (detectRecursiveLoop "It follows that this shows nothing.").depth ∧
      (detectRecursiveLoop "It follows that this shows nothing.").depth =
        (if 0 < (splitSentences "It follows that this shows nothing.").length then
          (((splitSentences "It follows that this shows nothing.").map
            sentenceSelfRefCount).sum : ℝ) /
            (splitSentences "It follows that this shows nothing.").length
        else 0)) :=
  ⟨by decide, recursionDepth_nonneg "It follows that this shows nothing." (by decide)⟩

/-! ## Pairwise detector: certainty escalation (`measureCertaintyEscalation`) -/

/-- First certainty-marker family
(`/\b(definitely|certainly|absolutely|clearly|obviously|undoubtedly)\b/gi`). -/
def certaintyFam1 : List (List String) :=
  [["definitely"], ["certainly"], ["absolutely"], ["clearly"], ["obviously"], ["undoubtedly"]]

/-- Second certainty-marker family
(`/\b(must|always|never|impossible|proven|fact)\b/gi`). -/
def certaintyFam2 : List (List String) :=
  [["must"], ["always"], ["never"], ["impossible"], ["proven"], ["fact"]]

/-- Third certainty-marker family
(`/\b(no doubt|without question|it is certain)\b/gi`). -/
def certaintyFam3 : List (List String) :=
  [["no", "doubt"], ["without", "question"], ["it", "is", "certain"]]

/-- Total certainty markers of one response. -/
def certaintyMarkerCount (response : String) : ℕ :=
  countFamily certaintyFam1 (tokenize response) +
    countFamily certaintyFam2 (tokenize response) +
    countFamily certaintyFam3 (tokenize response)

/-- Per-response certainty score: `markerCount / tokens.length`, `0` for a
tokenless response. -/
noncomputable def certaintyScore (response : String) : ℝ :=
  if tokenize response = [] then 0
  else (certaintyMarkerCount response : ℝ) / (tokenize response).length

/-- `ss.linearRegression` of simple-statistics on `[i, ys[i]]` data: the
slope `m` and intercept `b` of the ordinary-least-squares line (single-point
data gets `m = 0`, `b = y₀`). -/
noncomputable def olsRegression (ys : List ℝ) : ℝ × ℝ :=
  if ys.length = 1 then (0, ys.headD 0)
  else
    ((ys.length * ((((List.range ys.length).map (fun i => (i : ℝ))).zip ys).map
          (fun p => p.1 * p.2)).sum -
        ((List.range ys.length).map (fun i => (i : ℝ))).sum * ys.sum) /
      (ys.length * (((List.range ys.length).map (fun i => (i : ℝ))).map
          (fun x => x * x)).sum -
        ((List.range ys.length).map (fun i => (i : ℝ))).sum *
          ((List.range ys.length).map (fun i => (i : ℝ))).sum),
     ys.sum / ys.length -
       ((ys.length * ((((List.range ys.length).map (fun i => (i : ℝ))).zip ys).map
            (fun p => p.1 * p.2)).sum -
          ((List.range ys.length).map (fun i => (i : ℝ))).sum * ys.sum) /
        (ys.length * (((List.range ys.length).map (fun i => (i : ℝ))).map
            (fun x => x * x)).sum -
          ((List.range ys.length).map (fun i => (i : ℝ))).sum *
            ((List.range ys.length).map (fun i => (i : ℝ))).sum)) *
         ((List.range ys.length).map (fun i => (i : ℝ))).sum / ys.length)

/-- The source's `slope` variable:
`ss.linearRegressionLine(ss.linearRegression(...))(1)`, i.e. the fitted line
evaluated at `x = 1` — `m * 1 + b`, not the slope `m`. -/
noncomputable def escalationValue (responses : List String) : ℝ :=
  if 1 < (responses.map certaintyScore).length then
    (olsRegression (responses.map certaintyScore)).1 * 1 +
      (olsRegression (responses.map certaintyScore)).2
  else 0

/-- The record returned by `measureCertaintyEscalation` (the
`certaintyScores` list is recoverable as `responses.map certaintyScore`). -/
structure EscalationResult where
  detected : Bool
  escalation : ℝ
  confidence : ℝ

open Classical in
/-- `measureCertaintyEscalation(responses)`: zero result for fewer than two
responses, otherwise `detected = slope > 0.01` and
`confidence = min(|slope| * 100, 1)` on the `escalationValue` quantity. -/
noncomputable def measureCertaintyEscalation (responses : List String) : EscalationResult :=
  if responses.length < 2 then
    { detected := false, escalation := 0, confidence := 0 }
  else
    { detected := decide ((0.01 : ℝ) < escalationValue responses)
      escalation := escalationValue responses
      confidence := min (|escalationValue responses| * 100) 1 }

lemma certaintyScore_definitely_good : certaintyScore "definitely good" = 1 / 2 := by
  unfold certaintyScore
  rw [if_neg (by decide), show certaintyMarkerCount "definitely good" = 1 from rfl,
    show (tokenize "definitely good").length = 2 from rfl]
  norm_num

lemma olsRegression_constant_half :
    olsRegression (["definitely good", "definitely good"].map certaintyScore) = (0, 1 / 2) := by
  rw [List.map_cons, List.map_cons, List.map_nil, certaintyScore_definitely_good]
  unfold olsRegression
  rw [if_neg (by decide)]
  norm_num [List.range_succ, List.sum_cons, List.zip]

/-- C3.  On the two-response history with constant certainty scores
`[1/2, 1/2]` the ordinary-least-squares slope is `0` (no escalation, so the
claimed check must not fire), but the source evaluates the fitted regression
line at `x = 1` — slope *plus intercept* — so it reports escalation `1/2`
and detects: the code computes `m·1 + b`, not the slope `m` its own variable
name and comment promise. -/
theorem certaintyEscalation_uses_line_at_one_not_slope :
    (measureCertaintyEscalation ["definitely good", "definitely good"]).detected = true ∧
    (measureCertaintyEscalation ["definitely good", "definitely good"]).escalation = 1 / 2 ∧
    (olsRegression (["definitely good", "definitely good"].map certaintyScore)).1 = 0 ∧
    ¬ ((0.01 : ℝ) <
      (olsRegression (["definitely good", "definitely good"].map certaintyScore)).1) := by
  have hval : escalationValue ["definitely good", "definitely good"] = 1 / 2 := by
    unfold escalationValue
    rw [if_pos (by decide), olsRegression_constant_half]
    norm_num
  have hlen : ¬ (["definitely good", "definitely good"].length < 2) := by decide
  refine ⟨?_, ?_, ?_, ?_⟩
  · simp only [measureCertaintyEscalation]
    rw [if_neg hlen]
    rw [decide_eq_true_iff, hval]
    norm_num
  · simp only [measureCertaintyEscalation]
    rw [if_neg hlen]
    exact hval
  · rw [olsRegression_constant_half]
  · rw [olsRegression_constant_half]
    norm_num

/-! ## Saturation of detected confidences, and the combined detector -/

lemma consensus_detected_conf_one (response baseline : String) (threshold : ℝ)
    (hth : 0 < threshold)
    (hdet : (detectConsensusCollapse response baseline threshold).detected = true) :
    (detectConsensusCollapse response baseline threshold).confidence = 1 := by
  simp only [detectConsensusCollapse] at hdet ⊢
  rw [decide_eq_true_iff] at hdet
  rw [if_pos hdet]
  rw [min_eq_right]
  rw [le_div_iff hth]
  linarith [hdet.1]

lemma escalation_detected_conf_one (responses : List String)
    (hdet : (measureCertaintyEscalation responses).detected = true) :
    (measureCertaintyEscalation responses).confidence = 1 := by
  simp only [measureCertaintyEscalation] at hdet ⊢
  by_cases hlen : responses.length < 2
  · rw [if_pos hlen] at hdet
    exact absurd hdet (by simp)
  · rw [if_neg hlen] at hdet ⊢
    rw [decide_eq_true_iff] at hdet
    have hpos : (0 : ℝ) < escalationValue responses := by
      have : (0.01 : ℝ) < escalationValue responses := hdet
      linarith
    rw [abs_of_pos hpos]
    rw [min_eq_right]
    nlinarith
  
lemma recursive_detected_conf_pos (text : String)
    (hdet : (detectRecursiveLoop text).detected = true) :
    0 < (detectRecursiveLoop text).confidence := by
  simp only [detectRecursiveLoop] at hdet ⊢
  by_cases hbl : text.data.all (fun c => c.isWhitespace) = true
  · rw [if_pos hbl] at hdet
    exact absurd hdet (by simp)
  · rw [if_neg hbl] at hdet ⊢
    rw [decide_eq_true_iff] at hdet
    apply lt_min
    · apply div_pos
      · linarith
      · norm_num
    · norm_num

/-- C10.  With a positive threshold, whenever the consensus-collapse check
detects, its confidence is exactly 1 (`drop > threshold` forces
`drop/threshold > 1`, so the min caps), and whenever the
certainty-escalation check detects, its confidence is exactly 1
(`escalation > 0.01` forces `|escalation|·100 > 1`); a graded confidence
below 1 can only accompany `detected = false`. -/
theorem detected_confidence_saturates (response baseline : String) (threshold : ℝ)
    (hth : 0 < threshold) :
    ((detectConsensusCollapse response baseline threshold).detected = true →
      (detectConsensusCollapse response baseline threshold).confidence = 1) ∧
    (∀ responses : List String,
      (measureCertaintyEscalation responses).detected = true →
        (measureCertaintyEscalation responses).confidence = 1) :=
  ⟨consensus_detected_conf_one response baseline threshold hth,
   fun responses => escalation_detected_conf_one responses⟩

/-- C10 witness at the default threshold 0.30. -/
theorem detected_confidence_saturates_witness :
    (0 : ℝ) < 0.30 ∧
    (((detectConsensusCollapse "a" "b" 0.30).detected = true →
      (detectConsensusCollapse "a" "b" 0.30).confidence = 1) ∧
    (∀ responses : List String,
      (measureCertaintyEscalation responses).detected = true →
        (measureCertaintyEscalation responses).confidence = 1)) :=
  ⟨by norm_num, detected_confidence_saturates "a" "b" 0.30 (by norm_num)⟩

open Classical in
/-- The sequential primary-type selection of `detectContainment` (lines
279–295): starting from `(null, 0)`, each mechanism in evaluation order
takes over only when it detected *and* its confidence strictly exceeds the
running maximum. -/
noncomputable def pickPrimary (cc : ConsensusResult) (rl : RecursiveResult)
    (ce : EscalationResult) : Option String × ℝ :=
  let s1 : Option String × ℝ :=
    if cc.detected = true ∧ 0 < cc.confidence then (some "social_proof", cc.confidence)
    else (none, 0)
  let s2 : Option String × ℝ :=
    if rl.detected = true ∧ s1.2 < rl.confidence then (some "recursive_defense", rl.confidence)
    else s1
  if ce.detected = true ∧ s2.2 < ce.confidence then (some "observer_collapse", ce.confidence)
  else s2

open Classical in
/-- The specification's combination rule, stated over the ordered list of
mechanisms: among those whose check detected, pick the one with the highest
confidence, the first listed winning exact ties; none detected means no
containment. -/
noncomputable def specPickDominant (mechs : List (String × Bool × ℝ)) :
    Option (String × ℝ) :=
  (mechs.filter (fun m => m.2.1)).foldl
    (fun best m =>
      match best with
      | none => some (m.1, m.2.2)
      | some tc => if tc.2 < m.2.2 then some (m.1, m.2.2) else some tc)
    none

/-- The record returned by `detectContainment` (the `telemetry` block is
recoverable from the three sub-results). -/
structure ContainmentResult where
  containment_detected : Bool
  containment_type : Option String
  confidence : ℝ
  consensus_collapse : ConsensusResult
  recursive_loop : RecursiveResult
  certainty_escalation : EscalationResult

open Classical in
/-- `detectContainment(output, {baseline = '', history = [], threshold = 0.30})`:
run the consensus-collapse check only for a truthy baseline, the
certainty-escalation check only for a non-empty history (on
`[...history, output]`), pick the primary mechanism sequentially, and report
no containment when the type stays null. -/
noncomputable def detectContainment (output baseline : String) (history : List String)
    (threshold : ℝ) : ContainmentResult :=
  let consensusCollapse :=
    if baseline ≠ "" then detectConsensusCollapse output baseline threshold
    else { detected := false, entropyDrop := 0, responseEntropy := 0,
           baselineEntropy := 0, confidence := 0 }
  let recursiveLoop := detectRecursiveLoop output
  let certaintyEscalation :=
    if 0 < history.length then measureCertaintyEscalation (history ++ [output])
    else { detected := false, escalation := 0, confidence := 0 }
  { containment_detected := (pickPrimary consensusCollapse recursiveLoop certaintyEscalation).1.isSome
    containment_type := (pickPrimary consensusCollapse recursiveLoop certaintyEscalation).1
    confidence := (pickPrimary consensusCollapse recursiveLoop certaintyEscalation).2
    consensus_collapse := consensusCollapse
    recursive_loop := recursiveLoop
    certainty_escalation := certaintyEscalation }

lemma pickPrimary_spec (cc : ConsensusResult) (rl : RecursiveResult) (ce : EscalationResult)
    (h1 : cc.detected = true → 0 < cc.confidence)
    (h2 : rl.detected = true → 0 < rl.confidence)
    (h3 : ce.detected = true → 0 < ce.confidence) :
    (pickPrimary cc rl ce).1 =
      (specPickDominant [("social_proof", cc.detected, cc.confidence),
        ("recursive_defense", rl.detected, rl.confidence),
        ("observer_collapse", ce.detected, ce.confidence)]).map (fun tc => tc.1) ∧
    (pickPrimary cc rl ce).2 =
      ((specPickDominant [("social_proof", cc.detected, cc.confidence),
        ("recursive_defense", rl.detected, rl.confidence),
        ("observer_collapse", ce.detected, ce.confidence)]).map (fun tc => tc.2)).getD 0 := by
  cases hd1 : cc.detected <;> cases hd2 : rl.detected <;> cases hd3 : ce.detected <;>
    simp only [pickPrimary, specPickDominant, hd1, hd2, hd3, List.filter_cons, List.filter_nil,
      Bool.false_eq_true, if_false, if_true, List.foldl_cons, List.foldl_nil, true_and,
      false_and]
  all_goals try rw [if_pos (h1 hd1)]
  all_goals try rw [if_pos (h2 hd2)]
  all_goals try rw [if_pos (h3 hd3)]
  all_goals try (split_ifs <;> simp_all <;> try linarith)
  all_goals try (split_ifs <;> simp_all <;> try linarith)
  all_goals try simp_all

/-- C4.  With a positive threshold, the combined detector's reported type and
confidence are exactly the specification's rule: the mechanism with the
highest confidence among those whose check detected, ties broken by the
evaluation order consensus-collapse, recursive-loop, certainty-escalation
(first wins); when no mechanism detected the result is no containment
(`containment_detected = false`, null type, confidence 0 — the
`specPickDominant` value is `none` and `getD` yields 0). -/
theorem detectContainment_picks_dominant (output baseline : String)
    (history : List String) (threshold : ℝ) (hth : 0 < threshold) :
    (detectContainment output baseline history threshold).containment_type =
      (specPickDominant
        [("social_proof", (detectContainment output baseline history threshold).consensus_collapse.detected,
          (detectContainment output baseline history threshold).consensus_collapse.confidence),
        ("recursive_defense", (detectContainment output baseline history threshold).recursive_loop.detected,
          (detectContainment output baseline history threshold).recursive_loop.confidence),
        ("observer_collapse", (detectContainment output baseline history threshold).certainty_escalation.detected,
          (detectContainment output baseline history threshold).certainty_escalation.confidence)]).map (fun tc => tc.1) ∧
    (detectContainment output baseline history threshold).confidence =
      ((specPickDominant
        [("social_proof", (detectContainment output baseline history threshold).consensus_collapse.detected,
          (detectContainment output baseline history threshold).consensus_collapse.confidence),
        ("recursive_defense", (detectContainment output baseline history threshold).recursive_loop.detected,
          (detectContainment output baseline history threshold).recursive_loop.confidence),
        ("observer_collapse", (detectContainment output baseline history threshold).certainty_escalation.detected,
          (detectContainment output baseline history threshold).certainty_escalation.confidence)]).map (fun tc => tc.2)).getD 0 ∧
    (detectContainment output baseline history threshold).containment_detected =
      (specPickDominant
        [("social_proof", (detectContainment output baseline history threshold).consensus_collapse.detected,
          (detectContainment output baseline history threshold).consensus_collapse.confidence),
        ("recursive_defense", (detectContainment output baseline history threshold).recursive_loop.detected,
          (detectContainment output baseline history threshold).recursive_loop.confidence),
        ("observer_collapse", (detectContainment output baseline history threshold).certainty_escalation.detected,
          (detectContainment output baseline history threshold).certainty_escalation.confidence)]).isSome := by
  have hA : (detectContainment output baseline history threshold).consensus_collapse.detected = true →
      0 < (detectContainment output baseline history threshold).consensus_collapse.confidence := by
    have e1 : (detectContainment output baseline history threshold).consensus_collapse =
        (if baseline ≠ "" then detectConsensusCollapse output baseline threshold
         else ⟨false, 0, 0, 0, 0⟩) := rfl
    rw [e1]
    split_ifs with hb
    · intro hd
      rw [consensus_detected_conf_one _ _ _ hth hd]
      norm_num
    · intro hd
      exact absurd hd (by simp)
  have hB : (detectContainment output baseline history threshold).recursive_loop.detected = true →
      0 < (detectContainment output baseline history threshold).recursive_loop.confidence := by
    have e2 : (detectContainment output baseline history threshold).recursive_loop = detectRecursiveLoop output := rfl
    rw [e2]
    exact recursive_detected_conf_pos output
  have hC : (detectContainment output baseline history threshold).certainty_escalation.detected = true →
      0 < (detectContainment output baseline history threshold).certainty_escalation.confidence := by
    have e3 : (detectContainment output baseline history threshold).certainty_escalation =
        (if 0 < history.length then measureCertaintyEscalation (history ++ [output])
         else ⟨false, 0, 0⟩) := rfl
    rw [e3]
    split_ifs with hh
    · intro hd
      rw [escalation_detected_conf_one _ hd]
      norm_num
    · intro hd
      exact absurd hd (by simp)
  have hp := pickPrimary_spec (detectContainment output baseline history threshold).consensus_collapse
    (detectContainment output baseline history threshold).recursive_loop
    (detectContainment output baseline history threshold).certainty_escalation hA hB hC
  have ht : (detectContainment output baseline history threshold).containment_type =
      (pickPrimary (detectContainment output baseline history threshold).consensus_collapse
        (detectContainment output baseline history threshold).recursive_loop
        (detectContainment output baseline history threshold).certainty_escalation).1 := rfl
  have hcf : (detectContainment output baseline history threshold).confidence =
      (pickPrimary (detectContainment output baseline history threshold).consensus_collapse
        (detectContainment output baseline history threshold).recursive_loop
        (detectContainment output baseline history threshold).certainty_escalation).2 := rfl
  have hdet : (detectContainment output baseline history threshold).containment_detected =
      (pickPrimary (detectContainment output baseline history threshold).consensus_collapse
        (detectContainment output baseline history threshold).recursive_loop
        (detectContainment output baseline history threshold).certainty_escalation).1.isSome := rfl
  refine ⟨ht.trans hp.1, hcf.trans hp.2, ?_⟩
  rw [hdet, hp.1]
  simp

/-- C4 witness at a concrete input (empty baseline and history, default
threshold). -/
theorem detectContainment_picks_dominant_witness :
    (0 : ℝ) < 0.30 ∧
    ((detectContainment "x" "" [] 0.30).containment_type =
      (specPickDominant
        [("social_proof", (detectContainment "x" "" [] 0.30).consensus_collapse.detected,
          (detectContainment "x" "" [] 0.30).consensus_collapse.confidence),
        ("recursive_defense", (detectContainment "x" "" [] 0.30).recursive_loop.detected,
          (detectContainment "x" "" [] 0.30).recursive_loop.confidence),
        ("observer_collapse", (detectContainment "x" "" [] 0.30).certainty_escalation.detected,
          (detectContainment "x" "" [] 0.30).certainty_escalation.confidence)]).map (fun tc => tc.1) ∧
    (detectContainment "x" "" [] 0.30).confidence =
      ((specPickDominant
        [("social_proof", (detectContainment "x" "" [] 0.30).consensus_collapse.detected,
          (detectContainment "x" "" [] 0.30).consensus_collapse.confidence),
        ("recursive_defense", (detectContainment "x" "" [] 0.30).recursive_loop.detected,
          (detectContainment "x" "" [] 0.30).recursive_loop.confidence),
        ("observer_collapse", (detectContainment "x" "" [] 0.30).certainty_escalation.detected,
          (detectContainment "x" "" [] 0.30).certainty_escalation.confidence)]).map (fun tc => tc.2)).getD 0 ∧
    (detectContainment "x" "" [] 0.30).containment_detected =
      (specPickDominant
        [("social_proof", (detectContainment "x" "" [] 0.30).consensus_collapse.detected,
          (detectContainment "x" "" [] 0.30).consensus_collapse.confidence),
        ("recursive_defense", (detectContainment "x" "" [] 0.30).recursive_loop.detected,
          (detectContainment "x" "" [] 0.30).recursive_loop.confidence),
        ("observer_collapse", (detectContainment "x" "" [] 0.30).certainty_escalation.detected,
          (detectContainment "x" "" [] 0.30).certainty_escalation.confidence)]).isSome) :=
  ⟨by norm_num, detectContainment_picks_dominant "x" "" [] 0.30 (by norm_num)⟩

lemma entropy_a_b : calculateEntropy "a b" = 1 := by
  have h := calculateEntropy_of_nodup "a b" (by decide) (by decide)
  rw [h, show (tokenize "a b").length = 2 from rfl]
  exact_mod_cast Real.logb_self_eq_one (by norm_num)

/-- C4 counterexample.  At threshold `-1` with `output = baseline = "a b"`
the consensus-collapse check *detects* (drop `0 > -1` with positive baseline
entropy) but its capped confidence is `min(0 / (-1), 1) = 0`, so the sequential
`confidence > maxConfidence` update never fires and the combined result
reports *no* containment even though a mechanism detected — the claim,
quantified over every input, fails for non-positive thresholds. -/
theorem detectContainment_negative_threshold_counterexample :
    (detectContainment "a b" "a b" [] (-1)).consensus_collapse.detected = true ∧
    (detectContainment "a b" "a b" [] (-1)).containment_detected = false ∧
    (detectContainment "a b" "a b" [] (-1)).containment_type = none := by
  have hdrop : consensusDrop "a b" "a b" = 0 := by
    unfold consensusDrop
    rw [entropy_a_b, if_pos (by norm_num)]
    norm_num
  have hccd : (detectConsensusCollapse "a b" "a b" (-1)).detected = true := by
    simp only [detectConsensusCollapse]
    rw [decide_eq_true_iff, hdrop, entropy_a_b]
    norm_num
  have hccc : (detectConsensusCollapse "a b" "a b" (-1)).confidence = 0 := by
    simp only [detectConsensusCollapse]
    rw [if_pos (by rw [hdrop, entropy_a_b]; norm_num)]
    rw [hdrop]
    norm_num
  have he1 : (detectContainment "a b" "a b" [] (-1)).consensus_collapse =
      detectConsensusCollapse "a b" "a b" (-1) := by
    have : (detectContainment "a b" "a b" [] (-1)).consensus_collapse =
        (if ("a b" : String) ≠ "" then detectConsensusCollapse "a b" "a b" (-1)
         else ⟨false, 0, 0, 0, 0⟩) := rfl
    rw [this, if_pos (by decide)]
  have hrl : (detectRecursiveLoop "a b").detected = false := by
    have hdepth : recursionDepth "a b" = 0 := by
      unfold recursionDepth
      rw [show splitSentences "a b" = ["a b"] from rfl]
      simp only [List.map_cons, List.map_nil, List.length_cons, List.length_nil,
        List.sum_cons, List.sum_nil]
      rw [show sentenceSelfRefCount "a b" = 0 from rfl]
      norm_num
    simp only [detectRecursiveLoop]
    rw [if_neg (by decide)]
    rw [decide_eq_false_iff_not, hdepth]
    norm_num
  have hpick : pickPrimary (detectContainment "a b" "a b" [] (-1)).consensus_collapse
      (detectContainment "a b" "a b" [] (-1)).recursive_loop
      (detectContainment "a b" "a b" [] (-1)).certainty_escalation = (none, 0) := by
    have he2 : (detectContainment "a b" "a b" [] (-1)).recursive_loop =
        detectRecursiveLoop "a b" := rfl
    have he3 : (detectContainment "a b" "a b" [] (-1)).certainty_escalation =
        (⟨false, 0, 0⟩ : EscalationResult) := rfl
    rw [he1, he2, he3]
    simp [pickPrimary, hccc, hrl]
  refine ⟨by rw [he1]; exact hccd, ?_, ?_⟩
  · have : (detectContainment "a b" "a b" [] (-1)).containment_detected =
        (pickPrimary (detectContainment "a b" "a b" [] (-1)).consensus_collapse
          (detectContainment "a b" "a b" [] (-1)).recursive_loop
          (detectContainment "a b" "a b" [] (-1)).certainty_escalation).1.isSome := rfl
    rw [this, hpick]
    rfl
  · have : (detectContainment "a b" "a b" [] (-1)).containment_type =
        (pickPrimary (detectContainment "a b" "a b" [] (-1)).consensus_collapse
          (detectContainment "a b" "a b" [] (-1)).recursive_loop
          (detectContainment "a b" "a b" [] (-1)).certainty_escalation).1 := rfl
    rw [this, hpick]

/-! ## Record normalization in `analyze_multiturn.js` (`parseDescription`)

Unlike `export_for_r.js`, this extractor never skips a record: a failed
parse falls back to `'unknown'`/turn-0 placeholder values and the record
still produces a metrics row. -/

/-- The regex match `description.match(/^(.+?)-(\w+)-Turn(\d)$/)`: the text
must end in `-Turn` plus one digit; the dissenter is the word-character run
before that suffix, delimited by a `-` with a non-empty topic before it (a
`\w+` group cannot contain `-`, so the split point is forced and the lazy
topic group changes nothing). -/
def parseDescriptionMatch (description : String) : Option (String × String × ℕ) :=
  match description.data.reverse with
  | d :: 'n' :: 'r' :: 'u' :: 'T' :: '-' :: rest =>
    if d.isDigit then
      match rest.drop (rest.takeWhile isWordChar).length with
      | '-' :: topicRev =>
        if (rest.takeWhile isWordChar).isEmpty || topicRev.isEmpty then none
        else some (String.mk topicRev.reverse,
          String.mk (rest.takeWhile isWordChar).reverse, d.toNat - '0'.toNat)
      | _ => none
    else none
  | _ => none

/-- `parseDescription`: a failed match yields the placeholder
`{ topic: 'unknown', dissenter: 'unknown', turn: 0 }` rather than a skip or
a failure. -/
def parseDescription (description : String) : String × String × ℕ :=
  (parseDescriptionMatch description).getD ("unknown", "unknown", 0)

/-- One raw result record as consumed by `analyzeResults` of
`analyze_multiturn.js`. -/
structure MTRawResult where
  varsTopic : Option String
  varsDissenter : Option String
  varsDissenterName : Option String
  varsTurn : Option ℕ
  description : String
  outputText : String
  latencyMs : ℕ
  providerId : Option String
deriving DecidableEq

/-- JavaScript `a || b` on an optional string field. -/
def orElseS (v : Option String) (fallback : String) : String :=
  if truthyS v then v.getD "" else fallback

/-- JavaScript `a || b` on an optional numeric field (`0` is falsy). -/
def orElseN (v : Option ℕ) (fallback : ℕ) : ℕ :=
  if truthyN v then v.getD 0 else fallback

/-- The hedge lexicon of `analyze_multiturn.js` (`countHedgeWords`). -/
def mtHedgePhrases : List (List String) :=
  [["might"], ["could"], ["possibly"], ["perhaps"], ["maybe"], ["potentially"],
   ["sometimes"], ["often"], ["generally"], ["usually"], ["tend"], ["appears"],
   ["seems"], ["suggests"], ["indicates"], ["may"]]

/-- The `results.map(r => …)` body of `analyzeResults`: explicit vars fall
back to `parseDescription` field by field; `countTokens` is the tokenizer
length (unaffected by lowercasing); fields not consumed by the verified
analyses (entropy, certainty count, latency, length, text preview) are
omitted as in `TurnMetric`. -/
def toTurnMetric (r : MTRawResult) : TurnMetric :=
  { model := orElseS r.providerId "GPT-4"
    topic := orElseS r.varsTopic (parseDescription r.description).1
    dissenter := orElseS r.varsDissenter
      (orElseS r.varsDissenterName (parseDescription r.description).2.1)
    turn := orElseN r.varsTurn (parseDescription r.description).2.2
    tokens := (tokenize r.outputText).length
    hedgeCount := countFamily mtHedgePhrases (tokenize r.outputText) }

/-- The whole `metrics` extraction: one row per raw record, without
exception. -/
def mtMetrics (mresults : List MTRawResult) : List TurnMetric :=
  mresults.map toTurnMetric

/-- A record whose topic and dissenter resolve by neither path (no explicit
fields, unparseable description) but whose turn is explicit. -/
def c8badRecord : MTRawResult :=
  { varsTopic := none
    varsDissenter := none
    varsDissenterName := none
    varsTurn := some 1
    description := "no match here"
    outputText := "alpha beta gamma"
    latencyMs := 0
    providerId := none }

/-- C8 counterexample.  In `analyze_multiturn.js` a record whose dissenter
cannot be resolved by either path is *not* skipped and no skip count exists:
`parseDescription` substitutes the placeholder `'unknown'`, the record yields
a metrics row like any other, and — its turn being explicitly 1 — its 3
tokens enter the turn-1 aggregate pool, so turn aggregates are not sums over
only fully resolvable records. -/
theorem multiturn_retains_unresolvable_counterexample :
    mtMetrics [c8badRecord] = [⟨"GPT-4", "unknown", "unknown", 1, 3, 0⟩] ∧
    ((mtMetrics [c8badRecord]).filter (fun m => m.turn == 1)).map
      (fun m => m.tokens) = [3] := by decide

lemma orElseS_of_falsy (v : Option String) (f : String) (h : truthyS v = false) :
    orElseS v f = f := by
  unfold orElseS
  rw [h]
  rfl

lemma orElseN_of_falsy (v : Option ℕ) (f : ℕ) (h : truthyN v = false) :
    orElseN v f = f := by
  unfold orElseN
  rw [h]
  rfl

lemma orElseN_of_truthy (v : Option ℕ) (f n : ℕ) (hv : v = some n) (hn : n ≠ 0) :
    orElseN v f = n := by
  unfold orElseN
  rw [hv]
  simp [truthyN, hn]

/-- C8 amended.  In `export_for_r.js` the claimed contract holds: a record
whose topic, dissenter or turn stays unresolved after both paths is skipped
(one warning each, the skip counter counting exactly the unresolvable
records), rows plus skips partition the input, and every per-turn aggregate
total is the sum over exactly the non-skipped records.  In
`analyze_multiturn.js` it does not: the extraction never skips (one metrics
row per raw record, no skip count); a record unresolvable by both paths
becomes an `'unknown'`/`'unknown'`/turn-0 placeholder row; and a record with
an explicit non-zero turn but unresolvable dissenter enters that turn's
aggregates under dissenter `'unknown'`. -/
theorem normalizer_unresolvable_spec (results : List RawResult) (t : ℕ)
    (mresults : List MTRawResult) (r : MTRawResult) (n : ℕ) :
    ((exportState results).2 =
        (results.filter (fun x => (resolveVars x).isNone)).length ∧
      (exportState results).1.length + (exportState results).2 = results.length ∧
      byTurnTokens (exportState results).1 t =
        ((resolvedToTurn results t).map (fun x => x.tokens)).sum ∧
      byTurnHedge (exportState results).1 t =
        ((resolvedToTurn results t).map (fun x => hedgeWordsR x.outputText)).sum ∧
      byTurnCount (exportState results).1 t = (resolvedToTurn results t).length) ∧
    (mtMetrics mresults).length = mresults.length ∧
    (truthyS r.varsTopic = false → truthyS r.varsDissenter = false →
      truthyS r.varsDissenterName = false →
      parseDescriptionMatch r.description = none →
      ((truthyN r.varsTurn = false →
          (toTurnMetric r).topic = "unknown" ∧ (toTurnMetric r).dissenter = "unknown" ∧
            (toTurnMetric r).turn = 0) ∧
        (r.varsTurn = some n → n ≠ 0 →
          (toTurnMetric r).dissenter = "unknown" ∧ (toTurnMetric r).turn = n ∧
            (r ∈ mresults →
              toTurnMetric r ∈ (mtMetrics mresults).filter (fun m => m.turn == n))))) := by
  refine ⟨exportForR_skips_unresolvable results t, List.length_map _ _, ?_⟩
  intro htop hdis hdisn hparse
  have hpd : parseDescription r.description = ("unknown", "unknown", 0) := by
    unfold parseDescription
    rw [hparse]
    rfl
  constructor
  · intro hturn
    refine ⟨?_, ?_, ?_⟩
    · show orElseS r.varsTopic (parseDescription r.description).1 = "unknown"
      rw [orElseS_of_falsy _ _ htop, hpd]
    · show orElseS r.varsDissenter
        (orElseS r.varsDissenterName (parseDescription r.description).2.1) = "unknown"
      rw [orElseS_of_falsy _ _ hdis, orElseS_of_falsy _ _ hdisn, hpd]
    · show orElseN r.varsTurn (parseDescription r.description).2.2 = 0
      rw [orElseN_of_falsy _ _ hturn, hpd]
  · intro hvt hn
    have ht : (toTurnMetric r).turn = n := by
      show orElseN r.varsTurn (parseDescription r.description).2.2 = n
      exact orElseN_of_truthy _ _ _ hvt hn
    refine ⟨?_, ht, ?_⟩
    · show orElseS r.varsDissenter
        (orElseS r.varsDissenterName (parseDescription r.description).2.1) = "unknown"
      rw [orElseS_of_falsy _ _ hdis, orElseS_of_falsy _ _ hdisn, hpd]
    · intro hmem
      rw [List.mem_filter]
      refine ⟨List.mem_map_of_mem toTurnMetric hmem, ?_⟩
      rw [ht]
      simp

/-- C8 witness: the concrete record with explicit turn 1 and unresolvable
dissenter is retained under `'unknown'` inside the turn-1 pool. -/
theorem normalizer_unresolvable_spec_witness :
    (toTurnMetric c8badRecord).dissenter = "unknown" ∧
    (toTurnMetric c8badRecord).turn = 1 ∧
    toTurnMetric c8badRecord ∈
      (mtMetrics [c8badRecord]).filter (fun m => m.turn == 1) := by
  have h := ((normalizer_unresolvable_spec [] 0 [c8badRecord] c8badRecord 1).2.2
    (by decide) (by decide) (by decide) (by decide)).2 rfl (by decide)
  exact ⟨h.1, h.2.1, h.2.2 (by decide)⟩
